import Mathlib

/-!
Verification development for the fuel-stop trip planner (fuel_api/utils.py).

The numeric code is embedded over the real numbers.  Python floats become
elements of the reals, numpy array operations become list operations, and a
Python exception (the only reachable one is numpy argmin of an empty array)
becomes the error case of an Except value.  The module-level station catalog
(a CSV loaded at import time) and the route geometry obtained from the
external routing service are passed as parameters.
-/

namespace FuelApi

noncomputable section

open Real

open scoped Classical

/-- CONFIG constants from fuel_api/utils.py. -/
def MILES_PER_STOP : ℝ := 450.0

def MAX_DEVIATION_MILES : ℝ := 20.0

def MIN_DEVIATION_KM : ℝ := 0.35

def ALPHA : ℝ := 1.0

def BETA : ℝ := 3.0

def R_earth_km : ℝ := 6371.0

/-- Degrees to radians, as np.radians. -/
def radiansOf (x : ℝ) : ℝ := x * π / 180

/-- The two-argument arctangent np.arctan2 (y, x), with the usual range
(-pi, pi]; it is the argument of the complex number x + y i. -/
def arctan2 (y x : ℝ) : ℝ := Complex.arg ⟨x, y⟩

/-- haversine_km from utils.py: great-circle distance in km between
(lat1, lon1) and (lat2, lon2), degrees in, 6371 km Earth radius. -/
def haversine_km (lat1 lon1 lat2 lon2 : ℝ) : ℝ :=
  let dlat := radiansOf (lat2 - lat1)
  let dlon := radiansOf (lon2 - lon1)
  let a := Real.sin (dlat / 2) ^ 2 +
    Real.cos (radiansOf lat1) * Real.cos (radiansOf lat2) * Real.sin (dlon / 2) ^ 2
  let c := 2 * arctan2 (Real.sqrt a) (Real.sqrt (1 - a))
  R_earth_km * c

def km_to_miles (km : ℝ) : ℝ := km / 1.609344

def miles_to_km (mi : ℝ) : ℝ := mi * 1.609344

/-- The t factor of vectorized_segment_projection for one segment
(x1, y1) -> (x2, y2) and point (px, py), exactly as the source computes it:
note that the source line `dot = wx*vx + wy*wy` squares wy instead of
multiplying wy by vy.  For vv = 0 the float quotient dot/vv is nan (dot = 0)
or +inf (dot > 0); np.nan_to_num maps nan to 0 and +inf to a huge positive
float, and np.clip then yields 0 or 1 accordingly (dot = wy * wy is never
negative when vv = 0, since then vx = 0). -/
def segProjT (px py x1 y1 x2 y2 : ℝ) : ℝ :=
  let vx := x2 - x1
  let vy := y2 - y1
  let wx := px - x1
  let wy := py - y1
  let vv := vx * vx + vy * vy
  let dot := wx * vx + wy * wy
  if vv = 0 then (if 0 < dot then 1 else 0) else min 1 (max 0 (dot / vv))

/-- Modelled from the spec: the projection parameter
t = clamp(((P-A).(B-A)) / |B-A|^2, 0, 1), with t = 0 when |B-A|^2 = 0.
This is the formula the spec states for SegmentProjector, used only to
compare against the formula the source actually computes. -/
def segProjT_specFormula (px py x1 y1 x2 y2 : ℝ) : ℝ :=
  let vx := x2 - x1
  let vy := y2 - y1
  let wx := px - x1
  let wy := py - y1
  let vv := vx * vx + vy * vy
  let dot := wx * vx + wy * vy
  if vv = 0 then 0 else min 1 (max 0 (dot / vv))

/-- The reported deviation of vectorized_segment_projection for one segment:
haversine distance from (py, px) to the projected point. -/
def segProjDist (px py x1 y1 x2 y2 : ℝ) : ℝ :=
  let t := segProjT px py x1 y1 x2 y2
  haversine_km py px (y1 + t * (y2 - y1)) (x1 + t * (x2 - x1))

/-- vectorized_segment_projection from utils.py: distances and t factors of
point (px, py) against the segments (x1s[i], y1s[i]) -> (x2s[i], y2s[i]).
The source works on equal-length numpy arrays; in the one degenerate call
site the second pair of arrays is empty and broadcasting yields an empty
result, which the zip below reproduces. -/
def vectorized_segment_projection (px py : ℝ) (x1s y1s x2s y2s : List ℝ) :
    List (ℝ × ℝ) :=
  ((x1s.zip y1s).zip (x2s.zip y2s)).map fun s =>
    (segProjDist px py s.1.1 s.1.2 s.2.1 s.2.2, segProjT px py s.1.1 s.1.2 s.2.1 s.2.2)

/-- Helper for np.argmin: first index of the minimum.  bi and bv are the best
index and value so far, ci the index of the head of l. -/
def argminAux (l : List ℝ) (bi : ℕ) (bv : ℝ) (ci : ℕ) : ℕ :=
  match l with
  | [] => bi
  | v :: rest => if v < bv then argminAux rest ci v (ci + 1) else argminAux rest bi bv (ci + 1)

/-- np.argmin on a list: first index attaining the minimum; none for the
empty list, on which numpy raises ValueError. -/
def argminList (l : List ℝ) : Option ℕ :=
  match l with
  | [] => none
  | v :: rest => some (argminAux rest 0 v 1)

/-- np.searchsorted with its default left side: the first index at which v
could be inserted keeping the list sorted, i.e. the count of leading elements
strictly below v. -/
def searchsortedLeft (a : List ℝ) (v : ℝ) : ℕ :=
  match a with
  | [] => 0
  | x :: rest => if v ≤ x then 0 else searchsortedLeft rest v + 1

/-- Cumulative distances along a point list ((lat, lon) pairs), starting
after point p with accumulated distance acc. -/
def cumdistAux (p : ℝ × ℝ) (rest : List (ℝ × ℝ)) (acc : ℝ) : List ℝ :=
  match rest with
  | [] => []
  | q :: r =>
    let acc2 := acc + haversine_km p.1 p.2 q.1 q.2
    acc2 :: cumdistAux q r acc2

/-- route_points_and_cumdist from utils.py: geojson coordinates come as
(lon, lat) pairs; returns the (lat, lon) point list and the cumulative
distance array (just [0] for a single point). -/
def route_points_and_cumdist (coords : List (ℝ × ℝ)) : List (ℝ × ℝ) × List ℝ :=
  let pts := coords.map fun c => (c.2, c.1)
  (pts, 0 :: match pts with
    | [] => []
    | p :: r => cumdistAux p r 0)

/-- point_on_route_at_distance from utils.py.  Returns ((lat, lon), index,
fraction).  Python's max(0, idx - 1) is natural subtraction here. -/
def point_on_route_at_distance (pts : List (ℝ × ℝ)) (cumdist : List ℝ)
    (target_km : ℝ) : (ℝ × ℝ) × ℕ × ℝ :=
  if cumdist.getLastD 0 ≤ target_km then
    (pts.getLastD (0, 0), pts.length - 1, 1.0)
  else
    let idx := searchsortedLeft cumdist target_km
    let prev := idx - 1
    let start_km := cumdist.getD prev 0
    let end_km := cumdist.getD idx 0
    let seg_len := end_km - start_km
    let frac := if 0 < seg_len then (target_km - start_km) / seg_len else 0
    let p1 := pts.getD prev (0, 0)
    let p2 := pts.getD idx (0, 0)
    ((p1.1 + frac * (p2.1 - p1.1), p1.2 + frac * (p2.2 - p1.2)), prev, frac)

/-- A station row of the truckstop catalog: only the fields the planner
reads (latitude, longitude, Retail Price).  Rows with missing coordinates
are dropped at load time, before the index is built. -/
structure Station where
  latitude : ℝ
  longitude : ℝ
  retailPrice : ℝ

/-- The stop dictionary best_station_for_stop returns (descriptive string
columns omitted; idx is the catalog index best_cand.name). -/
structure StopRec where
  idx : ℕ
  retailPrice : ℝ
  latitude : ℝ
  longitude : ℝ
  deviation_km : ℝ
  proj_route_km : ℝ
  score : ℝ

/-- Catalog rows paired with their original indices, as a DataFrame
iterrows traversal sees them. -/
def enumFrom (n : ℕ) : List Station → List (ℕ × Station)
  | [] => []
  | s :: rest => (n, s) :: enumFrom (n + 1) rest

/-- Modelled from the spec and the documented sklearn BallTree haversine
metric (the tree is an external library object): the metric value between
two (lat, lon) points given in radians is 2 asin(sqrt(sin^2(dlat/2) +
cos lat1 cos lat2 sin^2(dlon/2))), and a BallTree radius query returns
exactly the indexed points with metric value at most r. -/
def sklearnHaversineRad (p q : ℝ × ℝ) : ℝ :=
  2 * Real.arcsin (Real.sqrt (Real.sin ((q.1 - p.1) / 2) ^ 2 +
    Real.cos p.1 * Real.cos q.1 * Real.sin ((q.2 - p.2) / 2) ^ 2))

/-- Membership test of one station in the BallTree radius query around
center (degrees in, converted with np.radians as the source does). -/
def inBallQuery (center : ℝ × ℝ) (r : ℝ) (s : Station) : Prop :=
  sklearnHaversineRad (radiansOf center.1, radiansOf center.2)
    (radiansOf s.latitude, radiansOf s.longitude) ≤ r

/-- GLOBAL_STATIONS_TREE.query_radius for one center: the indices (with
their rows) of the catalog entries within metric radius r, in index order. -/
def queryRadiusAux (center : ℝ × ℝ) (r : ℝ) : List (ℕ × Station) → List (ℕ × Station)
  | [] => []
  | is :: rest =>
    if inBallQuery center r is.2 then is :: queryRadiusAux center r rest
    else queryRadiusAux center r rest

def queryRadius (catalog : List Station) (center : ℝ × ℝ) (r : ℝ) :
    List (ℕ × Station) :=
  queryRadiusAux center r (enumFrom 0 catalog)

/-- Modelled from the spec: the brute-force linear scan that keeps every
facility whose great-circle (haversine) distance to the center is at most
radiusKm, against which the spec requires the index query to be compared. -/
def bruteForceScanAux (center : ℝ × ℝ) (radiusKm : ℝ) :
    List (ℕ × Station) → List (ℕ × Station)
  | [] => []
  | is :: rest =>
    if haversine_km center.1 center.2 is.2.latitude is.2.longitude ≤ radiusKm then
      is :: bruteForceScanAux center radiusKm rest
    else bruteForceScanAux center radiusKm rest

def bruteForceScan (catalog : List Station) (center : ℝ × ℝ) (radiusKm : ℝ) :
    List (ℕ × Station) :=
  bruteForceScanAux center radiusKm (enumFrom 0 catalog)

/-- The window slice computation of best_station_for_stop: from the route
arrays, the six arrays (seg_lons1, seg_lats1, seg_lons2, seg_lats2,
seg_base_cumdist, seg_lengths).  Index arithmetic is over Python ints,
embedded as integers. -/
def segWindow (stop_route_index : ℕ) (route_lats route_lons route_cumdist : List ℝ) :
    List ℝ × List ℝ × List ℝ × List ℝ × List ℝ × List ℝ :=
  let window : ℤ := 200
  let n_pts : ℤ := route_lats.length
  let i : ℤ := stop_route_index
  let start_seg0 : ℤ := max 0 (i - window)
  let end_seg0 : ℤ := min (n_pts - 2) (i + window)
  let start_seg : ℤ := if end_seg0 < start_seg0 then 0 else start_seg0
  let end_seg : ℤ := if end_seg0 < start_seg0 then max 0 (n_pts - 2) else end_seg0
  let a := start_seg.toNat
  let b := end_seg.toNat
  let k := b + 1 - a
  ((route_lons.drop a).take k,
   (route_lats.drop a).take k,
   (route_lons.drop (a + 1)).take k,
   (route_lats.drop (a + 1)).take k,
   (route_cumdist.drop a).take k,
   ((((route_cumdist.drop (a + 1)).take k).zip ((route_cumdist.drop a).take k)).map
     fun p => p.1 - p.2))

/-- The per-candidate body of the loop in best_station_for_stop: project the
candidate onto the windowed segments, take the argmin segment, apply the
progression filter, floor the deviation and score.  np.argmin of an empty
distance array raises ValueError, the error case. -/
def processCandidate (idx_cand : ℕ) (cand : Station)
    (w : List ℝ × List ℝ × List ℝ × List ℝ × List ℝ × List ℝ)
    (prev_route_km : ℝ) : Except Unit (Option StopRec) :=
  let dt := vectorized_segment_projection cand.longitude cand.latitude
    w.1 w.2.1 w.2.2.1 w.2.2.2.1
  match argminList (dt.map Prod.fst) with
  | none => .error ()
  | some m =>
    let min_dist_km := (dt.map Prod.fst).getD m 0
    let best_t := (dt.map Prod.snd).getD m 0
    let proj_km := (w.2.2.2.2.1).getD m 0 + best_t * (w.2.2.2.2.2).getD m 0
    if proj_km < prev_route_km - 0.001 then .ok none
    else
      let dev := max min_dist_km MIN_DEVIATION_KM
      .ok (some
        { idx := idx_cand
          retailPrice := cand.retailPrice
          latitude := cand.latitude
          longitude := cand.longitude
          deviation_km := dev
          proj_route_km := proj_km
          score := dev * ALPHA + cand.retailPrice * BETA })

/-- The candidate loop: best_candidates_list accumulated in query order; an
exception raised for any candidate aborts the whole call. -/
def collectCandidates (cands : List (ℕ × Station))
    (w : List ℝ × List ℝ × List ℝ × List ℝ × List ℝ × List ℝ)
    (prev_route_km : ℝ) : Except Unit (List StopRec) :=
  match cands with
  | [] => .ok []
  | c :: rest =>
    match processCandidate c.1 c.2 w prev_route_km with
    | .error e => .error e
    | .ok o =>
      match collectCandidates rest w prev_route_km with
      | .error e => .error e
      | .ok l => .ok (match o with | none => l | some s => s :: l)

/-- Sorting by score with Python's stable sort and taking element 0 returns
the first element attaining the minimal score. -/
def firstMinByScore (best : StopRec) (l : List StopRec) : StopRec :=
  match l with
  | [] => best
  | s :: rest =>
    if s.score < best.score then firstMinByScore s rest else firstMinByScore best rest

/-- best_station_for_stop from utils.py.  The station catalog (module
global GLOBAL_STATIONS_DF plus its BallTree) is a parameter. -/
def best_station_for_stop (catalog : List Station) (stop_point : ℝ × ℝ)
    (stop_route_index : ℕ) (prev_route_km : ℝ)
    (route_lats route_lons route_cumdist : List ℝ)
    (current_max_deviation_miles : ℝ) : Except Unit (Option StopRec) :=
  let radius_km := miles_to_km current_max_deviation_miles
  match queryRadius catalog stop_point (radius_km / R_earth_km) with
  | [] => .ok none
  | c :: crest =>
    let w := segWindow stop_route_index route_lats route_lons route_cumdist
    match collectCandidates (c :: crest) w prev_route_km with
    | .error e => .error e
    | .ok [] => .ok none
    | .ok (s :: srest) => .ok (some (firstMinByScore s srest))

/-- The escalating-radius loop of plan_trip: the first radius whose search
returns a station wins; an exception propagates. -/
def tryRadii (catalog : List Station) (radii : List ℝ) (stop_point : ℝ × ℝ)
    (stop_route_index : ℕ) (prev_route_km : ℝ)
    (route_lats route_lons route_cumdist : List ℝ) : Except Unit (Option StopRec) :=
  match radii with
  | [] => .ok none
  | r :: rest =>
    match best_station_for_stop catalog stop_point stop_route_index prev_route_km
      route_lats route_lons route_cumdist r with
    | .error e => .error e
    | .ok (some s) => .ok (some s)
    | .ok none => tryRadii catalog rest stop_point stop_route_index prev_route_km
        route_lats route_lons route_cumdist

/-- The marker loop of plan_trip: for each distance marker, locate the
approximate route point, search with escalating radii, and on success append
the stop and advance prev_proj_km to its projected route distance. -/
def planLoop (catalog : List Station) (pts : List (ℝ × ℝ))
    (cumdist : List ℝ) (route_lats route_lons : List ℝ)
    (markers : List ℝ) (prev_proj_km : ℝ) : Except Unit (List StopRec) :=
  match markers with
  | [] => .ok []
  | stop_km :: rest =>
    let r := point_on_route_at_distance pts cumdist stop_km
    match tryRadii catalog [MAX_DEVIATION_MILES, 50, 100, 150] r.1 r.2.1 prev_proj_km
      route_lats route_lons cumdist with
    | .error e => .error e
    | .ok (some best) =>
      match planLoop catalog pts cumdist route_lats route_lons rest best.proj_route_km with
      | .error e => .error e
      | .ok l => .ok (best :: l)
    | .ok none => planLoop catalog pts cumdist route_lats route_lons rest prev_proj_km

/-- plan_trip returns a 3-tuple (stops, base route, final route) on the
short-route early return and a 4-tuple (stops, base route, final route,
total miles) otherwise; the two constructors record the two tuple shapes. -/
inductive PlanResult where
  | short : List StopRec → List (ℝ × ℝ) → List (ℝ × ℝ) → PlanResult
  | full : List StopRec → List (ℝ × ℝ) → List (ℝ × ℝ) → ℝ → PlanResult

/-- plan_trip from utils.py.  route_coords is the (lon, lat) coordinate
sequence the external routing service returned for (start, end);
final_route_resp is the optional coordinate sequence of the
route-with-waypoints call (none when that call fails). -/
def plan_trip (route_coords : List (ℝ × ℝ)) (catalog : List Station)
    (final_route_resp : Option (List (ℝ × ℝ))) : Except Unit PlanResult :=
  let pr := route_points_and_cumdist route_coords
  let pts_list := pr.1
  let cumdist_arr := pr.2
  let lats_arr := pts_list.map Prod.fst
  let lons_arr := pts_list.map Prod.snd
  let total_km := cumdist_arr.getLastD 0
  let total_miles := km_to_miles total_km
  let n_stops := (Int.floor (total_miles / MILES_PER_STOP)).toNat
  if n_stops = 0 then .ok (.short [] pts_list pts_list)
  else
    let markers := (List.range n_stops).map fun i => miles_to_km ((i + 1 : ℕ) * MILES_PER_STOP)
    match planLoop catalog pts_list cumdist_arr lats_arr lons_arr markers 0 with
    | .error e => .error e
    | .ok results =>
      let final_route_pts :=
        match results with
        | [] => pts_list
        | _ :: _ =>
          match final_route_resp with
          | some coords => (route_points_and_cumdist coords).1
          | none => pts_list
      .ok (.full results pts_list final_route_pts total_miles)

/-! Geometry lemmas used to evaluate the embedded functions on concrete
coordinates: on the equator and on a meridian the haversine distance is an
exact linear function of the coordinate difference. -/

/-- Kilometres per degree of arc on a great circle with the code's Earth
radius. -/
def kmPerDeg : ℝ := 6371 * π / 180

lemma kmPerDeg_pos : 0 < kmPerDeg := by
  unfold kmPerDeg
  positivity

lemma kmPerDeg_gt_111 : 111 < kmPerDeg := by
  unfold kmPerDeg
  nlinarith [Real.pi_gt_d6]

lemma kmPerDeg_lt_112 : kmPerDeg < 112 := by
  unfold kmPerDeg
  nlinarith [Real.pi_lt_d6]

lemma arctan2_cos_sin (θ : ℝ) (h1 : -π < θ) (h2 : θ ≤ π) :
    arctan2 (Real.sin θ) (Real.cos θ) = θ := by
  unfold arctan2
  have hmk : (⟨Real.cos θ, Real.sin θ⟩ : ℂ) = Complex.cos θ + Complex.sin θ * Complex.I := by
    rw [Complex.mk_eq_add_mul_I, Complex.ofReal_cos, Complex.ofReal_sin]
  rw [hmk, Complex.arg_cos_add_sin_mul_I ⟨h1, h2⟩]

lemma sin_abs_of_abs_le_pi (θ : ℝ) (h : |θ| ≤ π) : Real.sin |θ| = |Real.sin θ| := by
  rcases abs_cases θ with ⟨he, hp⟩ | ⟨he, hn⟩
  · rw [he, abs_of_nonneg (Real.sin_nonneg_of_nonneg_of_le_pi hp (he ▸ h))]
  · have hsin : Real.sin θ ≤ 0 := by
      have hge : -π ≤ θ := by
        have := (abs_le.mp h).1
        linarith
      have h0 : 0 ≤ Real.sin (-θ) :=
        Real.sin_nonneg_of_nonneg_of_le_pi (by linarith) (by rw [← he]; exact h)
      rw [Real.sin_neg] at h0
      linarith
    rw [he, Real.sin_neg, abs_of_nonpos hsin]

lemma arctan2_sqrt_sin_sq (θ : ℝ) (h : |θ| ≤ π / 2) :
    arctan2 (Real.sqrt (Real.sin θ ^ 2)) (Real.sqrt (1 - Real.sin θ ^ 2)) = |θ| := by
  have hpi : 0 < π := Real.pi_pos
  have habs : |θ| ≤ π := by linarith
  have hsq : Real.sqrt (Real.sin θ ^ 2) = Real.sin |θ| := by
    rw [Real.sqrt_sq_eq_abs, sin_abs_of_abs_le_pi θ habs]
  have hone : 1 - Real.sin θ ^ 2 = Real.cos θ ^ 2 := by
    have := Real.sin_sq_add_cos_sq θ
    linarith
  have hcosnn : 0 ≤ Real.cos θ := by
    rcases abs_le.mp h with ⟨hl, hr⟩
    exact Real.cos_nonneg_of_mem_Icc ⟨by linarith, hr⟩
  have hcsq : Real.sqrt (1 - Real.sin θ ^ 2) = Real.cos |θ| := by
    rw [hone, Real.sqrt_sq_eq_abs, abs_of_nonneg hcosnn, Real.cos_abs]
  rw [hsq, hcsq]
  exact arctan2_cos_sin |θ| (by linarith [abs_nonneg θ]) habs

lemma haversine_equator (x1 x2 : ℝ) (h : |x2 - x1| ≤ 180) :
    haversine_km 0 x1 0 x2 = kmPerDeg * |x2 - x1| := by
  have hpi : 0 < π := Real.pi_pos
  have hzero : radiansOf (0 - 0) = 0 := by simp [radiansOf]
  have hlat : radiansOf (0 : ℝ) = 0 := by simp [radiansOf]
  have hth : |radiansOf (x2 - x1) / 2| ≤ π / 2 := by
    have : |radiansOf (x2 - x1) / 2| = |x2 - x1| * (π / 360) := by
      rw [abs_div, abs_of_nonneg (by positivity : (0:ℝ) ≤ (2:ℝ))]
      unfold radiansOf
      rw [abs_div, abs_mul, abs_of_nonneg hpi.le,
        abs_of_nonneg (by norm_num : (0:ℝ) ≤ (180:ℝ))]
      ring
    rw [this]
    calc |x2 - x1| * (π / 360) ≤ 180 * (π / 360) := by
          apply mul_le_mul_of_nonneg_right h (by positivity)
      _ = π / 2 := by ring
  have key := arctan2_sqrt_sin_sq (radiansOf (x2 - x1) / 2) hth
  simp only [haversine_km]
  rw [hzero, hlat]
  rw [show ((0:ℝ) / 2) = 0 by norm_num, Real.sin_zero, Real.cos_zero]
  rw [show ((0:ℝ) ^ 2 + 1 * 1 * Real.sin (radiansOf (x2 - x1) / 2) ^ 2) =
    Real.sin (radiansOf (x2 - x1) / 2) ^ 2 by ring]
  rw [key]
  have habs : |radiansOf (x2 - x1) / 2| = |x2 - x1| * π / 360 := by
    rw [abs_div, abs_of_nonneg (by positivity : (0:ℝ) ≤ (2:ℝ))]
    unfold radiansOf
    rw [abs_div, abs_mul, abs_of_nonneg hpi.le,
      abs_of_nonneg (by norm_num : (0:ℝ) ≤ (180:ℝ))]
    ring
  rw [habs]
  unfold R_earth_km kmPerDeg
  ring

lemma haversine_meridian (lat1 lat2 lon : ℝ) (h : |lat2 - lat1| ≤ 180) :
    haversine_km lat1 lon lat2 lon = kmPerDeg * |lat2 - lat1| := by
  have hpi : 0 < π := Real.pi_pos
  have hth : |radiansOf (lat2 - lat1) / 2| ≤ π / 2 := by
    have habs : |radiansOf (lat2 - lat1) / 2| = |lat2 - lat1| * (π / 360) := by
      rw [abs_div, abs_of_nonneg (by positivity : (0:ℝ) ≤ (2:ℝ))]
      unfold radiansOf
      rw [abs_div, abs_mul, abs_of_nonneg hpi.le,
        abs_of_nonneg (by norm_num : (0:ℝ) ≤ (180:ℝ))]
      ring
    rw [habs]
    calc |lat2 - lat1| * (π / 360) ≤ 180 * (π / 360) := by
          apply mul_le_mul_of_nonneg_right h (by positivity)
      _ = π / 2 := by ring
  have key := arctan2_sqrt_sin_sq (radiansOf (lat2 - lat1) / 2) hth
  simp only [haversine_km]
  rw [show radiansOf (lon - lon) = 0 by simp [radiansOf]]
  rw [show ((0:ℝ) / 2) = 0 by norm_num, Real.sin_zero]
  rw [show (Real.sin (radiansOf (lat2 - lat1) / 2) ^ 2 +
    Real.cos (radiansOf lat1) * Real.cos (radiansOf lat2) * (0:ℝ) ^ 2) =
    Real.sin (radiansOf (lat2 - lat1) / 2) ^ 2 by ring]
  rw [key]
  have habs : |radiansOf (lat2 - lat1) / 2| = |lat2 - lat1| * π / 360 := by
    rw [abs_div, abs_of_nonneg (by positivity : (0:ℝ) ≤ (2:ℝ))]
    unfold radiansOf
    rw [abs_div, abs_mul, abs_of_nonneg hpi.le,
      abs_of_nonneg (by norm_num : (0:ℝ) ≤ (180:ℝ))]
    ring
  rw [habs]
  unfold R_earth_km kmPerDeg
  ring

lemma haversine_self (lat lon : ℝ) : haversine_km lat lon lat lon = 0 := by
  have := haversine_meridian lat lat lon (by norm_num)
  simpa using this

lemma haversine_equator_of_le (x1 x2 : ℝ) (hle : x1 ≤ x2) (h : x2 - x1 ≤ 180) :
    haversine_km 0 x1 0 x2 = kmPerDeg * (x2 - x1) := by
  rw [haversine_equator x1 x2 (by rw [abs_of_nonneg (by linarith)]; exact h)]
  rw [abs_of_nonneg (by linarith)]

lemma haversine_equator_of_ge (x1 x2 : ℝ) (hle : x2 ≤ x1) (h : x1 - x2 ≤ 180) :
    haversine_km 0 x1 0 x2 = kmPerDeg * (x1 - x2) := by
  rw [haversine_equator x1 x2 (by rw [abs_of_nonpos (by linarith)]; linarith)]
  rw [abs_of_nonpos (by linarith)]
  ring

/-! The sklearn haversine metric (2 asin sqrt a) agrees with the repository
haversine (2 atan2 (sqrt a) (sqrt (1-a))) whenever the quantity a lies in
[0, 1], which holds for latitudes within [-90, 90] degrees. -/

lemma arcsin_sqrt_eq_arctan2 (a : ℝ) (h0 : 0 ≤ a) (h1 : a ≤ 1) :
    Real.arcsin (Real.sqrt a) = arctan2 (Real.sqrt a) (Real.sqrt (1 - a)) := by
  have hs1 : Real.sqrt a ≤ 1 := by
    rw [show (1 : ℝ) = Real.sqrt 1 by simp]
    exact Real.sqrt_le_sqrt h1
  have hsin : Real.sin (Real.arcsin (Real.sqrt a)) = Real.sqrt a :=
    Real.sin_arcsin (by linarith [Real.sqrt_nonneg a]) hs1
  have hcos : Real.cos (Real.arcsin (Real.sqrt a)) = Real.sqrt (1 - a) := by
    rw [Real.cos_arcsin, Real.sq_sqrt h0]
  have hb1 : -π < Real.arcsin (Real.sqrt a) := by
    have := Real.arcsin_nonneg.mpr (Real.sqrt_nonneg a)
    linarith [Real.pi_pos]
  have hb2 : Real.arcsin (Real.sqrt a) ≤ π := by
    linarith [Real.arcsin_le_pi_div_two (Real.sqrt a), Real.pi_pos]
  have h := arctan2_cos_sin (Real.arcsin (Real.sqrt a)) hb1 hb2
  rw [hsin, hcos] at h
  exact h.symm

lemma hav_a_le_one (ph1 ph2 x : ℝ) (h1 : 0 ≤ Real.cos ph1) (h2 : 0 ≤ Real.cos ph2) :
    Real.sin ((ph2 - ph1) / 2) ^ 2 + Real.cos ph1 * Real.cos ph2 * Real.sin x ^ 2 ≤ 1 := by
  have hpy : Real.sin ((ph2 - ph1) / 2) ^ 2 + Real.cos ((ph2 - ph1) / 2) ^ 2 = 1 :=
    Real.sin_sq_add_cos_sq _
  have hcsq : Real.cos ((ph2 - ph1) / 2) ^ 2 = 1 / 2 + Real.cos (ph2 - ph1) / 2 := by
    have h := Real.cos_sq ((ph2 - ph1) / 2)
    rw [show 2 * ((ph2 - ph1) / 2) = ph2 - ph1 by ring] at h
    exact h
  have hadd := Real.cos_add ph2 ph1
  have hsub := Real.cos_sub ph2 ph1
  have hsum : Real.cos (ph2 + ph1) ≤ 1 := Real.cos_le_one _
  have hsx : Real.sin x ^ 2 ≤ 1 := by
    have ha := Real.neg_one_le_sin x
    have hb := Real.sin_le_one x
    nlinarith
  have hcc : 0 ≤ Real.cos ph1 * Real.cos ph2 := mul_nonneg h1 h2
  nlinarith [mul_le_of_le_one_right hcc hsx, mul_nonneg hcc (sq_nonneg (Real.sin x))]

lemma radiansOf_abs_le (lat : ℝ) (h : |lat| ≤ 90) : |radiansOf lat| ≤ π / 2 := by
  unfold radiansOf
  rw [abs_div, abs_mul, abs_of_nonneg Real.pi_pos.le,
    abs_of_nonneg (by norm_num : (0:ℝ) ≤ 180)]
  have hm : |lat| * π ≤ 90 * π := mul_le_mul_of_nonneg_right h Real.pi_pos.le
  linarith

lemma cos_radians_nonneg (lat : ℝ) (h : |lat| ≤ 90) : 0 ≤ Real.cos (radiansOf lat) := by
  rcases abs_le.mp (radiansOf_abs_le lat h) with ⟨hl, hr⟩
  exact Real.cos_nonneg_of_mem_Icc ⟨hl, hr⟩

/-- One-station equivalence between the BallTree radius test at radius
radiusKm / 6371 on radian coordinates and the repository haversine_km
compared against radiusKm. -/
lemma inBallQuery_iff_haversine (center : ℝ × ℝ) (s : Station) (radiusKm : ℝ)
    (hc : |center.1| ≤ 90) (hs : |s.latitude| ≤ 90) :
    inBallQuery center (radiusKm / R_earth_km) s ↔
      haversine_km center.1 center.2 s.latitude s.longitude ≤ radiusKm := by
  have hlat : (radiansOf s.latitude - radiansOf center.1) / 2 =
      radiansOf (s.latitude - center.1) / 2 := by
    unfold radiansOf; ring
  have hlon : (radiansOf s.longitude - radiansOf center.2) / 2 =
      radiansOf (s.longitude - center.2) / 2 := by
    unfold radiansOf; ring
  have h0 : 0 ≤ Real.sin (radiansOf (s.latitude - center.1) / 2) ^ 2 +
      Real.cos (radiansOf center.1) * Real.cos (radiansOf s.latitude) *
      Real.sin (radiansOf (s.longitude - center.2) / 2) ^ 2 := by
    have := mul_nonneg (cos_radians_nonneg center.1 hc) (cos_radians_nonneg s.latitude hs)
    have hx := sq_nonneg (Real.sin (radiansOf (s.longitude - center.2) / 2))
    have hy := sq_nonneg (Real.sin (radiansOf (s.latitude - center.1) / 2))
    nlinarith [mul_nonneg this hx]
  have h1 : Real.sin (radiansOf (s.latitude - center.1) / 2) ^ 2 +
      Real.cos (radiansOf center.1) * Real.cos (radiansOf s.latitude) *
      Real.sin (radiansOf (s.longitude - center.2) / 2) ^ 2 ≤ 1 := by
    rw [← hlat]
    exact hav_a_le_one _ _ _ (cos_radians_nonneg center.1 hc) (cos_radians_nonneg s.latitude hs)
  unfold inBallQuery sklearnHaversineRad
  simp only [haversine_km]
  rw [hlat, hlon]
  rw [← arcsin_sqrt_eq_arctan2 _ h0 h1]
  rw [le_div_iff₀ (show (0:ℝ) < R_earth_km by norm_num [R_earth_km])]
  constructor
  · intro h; nlinarith
  · intro h; nlinarith

lemma enumFrom_snd_mem (l : List Station) :
    ∀ (n : ℕ) (p : ℕ × Station), p ∈ enumFrom n l → p.2 ∈ l := by
  induction l with
  | nil => intro n p hp; simp [enumFrom] at hp
  | cons s rest ih =>
    intro n p hp
    simp only [enumFrom, List.mem_cons] at hp
    rcases hp with h | h
    · subst h; simp
    · exact List.mem_cons_of_mem _ (ih (n + 1) p h)

lemma query_eq_brute_aux (center : ℝ × ℝ) (radiusKm : ℝ) (hc : |center.1| ≤ 90)
    (l : List (ℕ × Station)) (hl : ∀ p ∈ l, |p.2.latitude| ≤ 90) :
    queryRadiusAux center (radiusKm / R_earth_km) l = bruteForceScanAux center radiusKm l := by
  induction l with
  | nil => rfl
  | cons p rest ih =>
    simp only [queryRadiusAux, bruteForceScanAux]
    have hiff := inBallQuery_iff_haversine center p.2 radiusKm hc (hl p (by simp))
    have hrest : ∀ q ∈ rest, |q.2.latitude| ≤ 90 := fun q hq => hl q (by simp [hq])
    by_cases hmem : inBallQuery center (radiusKm / R_earth_km) p.2
    · rw [if_pos hmem, if_pos (hiff.mp hmem), ih hrest]
    · rw [if_neg hmem, if_neg (fun h => hmem (hiff.mpr h)), ih hrest]

/-! Claim theorems C1, C2, C4. -/

/-- C1: the claim states the projection parameter is
t = clamp(((P-A).(B-A)) / |B-A|^2, 0, 1).  The source line
`dot = wx*vx + wy*wy` squares the second component of w instead of taking
the dot product, so for the candidate P = (1, 1) against the single segment
A = (0, 0), B = (2, 0) the code computes t = 3/4 while the claimed formula
gives t = 1/2.  This evaluates the code at that failing input. -/
theorem claim_C1_projection_dot_typo :
    (vectorized_segment_projection 1 1 [0] [0] [2] [0]).map Prod.snd = [3 / 4] ∧
    segProjT_specFormula 1 1 0 0 2 0 = 1 / 2 ∧ ((3 : ℝ) / 4 ≠ 1 / 2) := by
  refine ⟨?_, ?_, by norm_num⟩
  · simp only [vectorized_segment_projection, List.zip_cons_cons, List.zip_nil_left,
      List.map_cons, List.map_nil]
    have ht : segProjT 1 1 0 0 2 0 = 3 / 4 := by
      simp only [segProjT]
      rw [if_neg (by norm_num)]
      rw [show ((1:ℝ) - 0) * (2 - 0) + (1 - 0) * (1 - 0) = 3 by ring,
        show ((2:ℝ) - 0) * (2 - 0) + (0 - 0) * (0 - 0) = 4 by ring]
      rw [show max (0:ℝ) (3 / 4) = 3 / 4 from max_eq_right (by norm_num)]
      exact min_eq_right (by norm_num)
    rw [ht]
  · simp only [segProjT_specFormula]
    rw [if_neg (by norm_num)]
    rw [show ((1:ℝ) - 0) * (2 - 0) + (1 - 0) * (0 - 0) = 2 by ring,
      show ((2:ℝ) - 0) * (2 - 0) + (0 - 0) * (0 - 0) = 4 by ring]
    rw [show max (0:ℝ) (2 / 4) = 2 / 4 from max_eq_right (by norm_num)]
    rw [min_eq_right (by norm_num)]
    norm_num

/-- C2: the claim states that a candidate lying exactly on a segment gets
deviation approximately 0.  Because of the same dot-product slip, the
candidate (lat 1, lon 0) lying exactly at the midpoint of the segment from
(lat 0, lon 0) to (lat 2, lon 0) is projected to (lat 1/2, lon 0), and the
reported deviation is the haversine distance 6371 pi / 360, more than 50 km,
not approximately 0. -/
theorem claim_C2_on_segment_deviation :
    vectorized_segment_projection 0 1 [0] [0] [0] [2] = [(6371 * π / 360, 1 / 4)] ∧
    50 < 6371 * π / 360 := by
  constructor
  · simp only [vectorized_segment_projection, List.zip_cons_cons, List.zip_nil_left,
      List.map_cons, List.map_nil]
    have ht : segProjT 0 1 0 0 0 2 = 1 / 4 := by
      simp only [segProjT]
      rw [if_neg (by norm_num)]
      rw [show ((0:ℝ) - 0) * (0 - 0) + (1 - 0) * (1 - 0) = 1 by ring,
        show ((0:ℝ) - 0) * (0 - 0) + (2 - 0) * (2 - 0) = 4 by ring]
      rw [show max (0:ℝ) (1 / 4) = 1 / 4 from max_eq_right (by norm_num)]
      exact min_eq_right (by norm_num)
    have hd : segProjDist 0 1 0 0 0 2 = 6371 * π / 360 := by
      simp only [segProjDist, ht]
      rw [show ((0:ℝ) + 1 / 4 * (2 - 0)) = 1 / 2 by norm_num,
        show ((0:ℝ) + 1 / 4 * (0 - 0)) = 0 by norm_num]
      rw [haversine_meridian 1 (1 / 2) 0 (by rw [abs_le]; constructor <;> norm_num)]
      rw [show |(1:ℝ) / 2 - 1| = 1 / 2 by rw [abs_of_nonpos (by norm_num)]; norm_num]
      unfold kmPerDeg
      ring
    rw [ht, hd]
  · nlinarith [Real.pi_gt_three]

/-- C4: the BallTree radius query at tree radius radiusKm / 6371 returns
exactly the catalog entries whose haversine_km distance to the center is at
most radiusKm, i.e. the brute-force linear scan result, for any catalog and
center with latitudes in [-90, 90]. -/
theorem claim_C4_query_radius_equiv (catalog : List Station) (center : ℝ × ℝ)
    (radiusKm : ℝ) (hc : |center.1| ≤ 90) (hcat : ∀ s ∈ catalog, |s.latitude| ≤ 90) :
    queryRadius catalog center (radiusKm / R_earth_km) =
      bruteForceScan catalog center radiusKm :=
  query_eq_brute_aux center radiusKm hc _
    (fun p hp => hcat p.2 (enumFrom_snd_mem catalog 0 p hp))

/-- Concrete station used by the C4 witness. -/
def stW4 : Station := { latitude := 0, longitude := 0.3, retailPrice := 2.5 }

/-- Witness for C4: the hypotheses hold and the equivalence applies at a
concrete one-station catalog and center. -/
theorem claim_C4_witness :
    |((0:ℝ), (0:ℝ)).1| ≤ 90 ∧ (∀ s ∈ [stW4], |s.latitude| ≤ 90) ∧
    queryRadius [stW4] ((0:ℝ), (0:ℝ)) (60 / R_earth_km) =
      bruteForceScan [stW4] ((0:ℝ), (0:ℝ)) 60 := by
  have hc : |((0:ℝ), (0:ℝ)).1| ≤ 90 := by norm_num
  have hcat : ∀ s ∈ [stW4], |s.latitude| ≤ 90 := by
    intro s hs
    rw [List.mem_singleton] at hs
    subst hs
    show |(0:ℝ)| ≤ 90
    norm_num
  exact ⟨hc, hcat, claim_C4_query_radius_equiv [stW4] _ 60 hc hcat⟩

/-! Structural lemmas about the candidate processing pipeline of
best_station_for_stop. -/

instance : Inhabited StopRec :=
  ⟨{ idx := 0, retailPrice := 0, latitude := 0, longitude := 0,
     deviation_km := 0, proj_route_km := 0, score := 0 }⟩

/-- Any stop record produced by processCandidate passed the progression
filter, has its deviation floored at MIN_DEVIATION_KM, and is scored as
deviation * ALPHA + price * BETA. -/
lemma processCandidate_some {i : ℕ} {c : Station}
    {w : List ℝ × List ℝ × List ℝ × List ℝ × List ℝ × List ℝ} {prev : ℝ} {s : StopRec}
    (h : processCandidate i c w prev = .ok (some s)) :
    prev - 0.001 ≤ s.proj_route_km ∧ MIN_DEVIATION_KM ≤ s.deviation_km ∧
      s.score = s.deviation_km * ALPHA + s.retailPrice * BETA := by
  simp only [processCandidate] at h
  split at h
  · exact absurd h (by simp)
  · split at h
    next hcond => exact absurd h (by simp)
    next hcond =>
      simp only [Except.ok.injEq, Option.some.injEq] at h
      subst h
      refine ⟨le_of_not_lt hcond, le_max_right _ _, rfl⟩

/-- Every stop record in a successful collectCandidates result was produced
by processCandidate on one of the queried candidates. -/
lemma collectCandidates_mem {cands : List (ℕ × Station)}
    {w : List ℝ × List ℝ × List ℝ × List ℝ × List ℝ × List ℝ} {prev : ℝ}
    {l : List StopRec} (h : collectCandidates cands w prev = .ok l) :
    ∀ s ∈ l, ∃ c ∈ cands, processCandidate c.1 c.2 w prev = .ok (some s) := by
  induction cands generalizing l with
  | nil =>
    simp only [collectCandidates, Except.ok.injEq] at h
    subst h
    intro s hs
    exact absurd hs (by simp)
  | cons c rest ih =>
    simp only [collectCandidates] at h
    split at h
    · exact absurd h (by simp)
    next o hproc =>
      split at h
      · exact absurd h (by simp)
      next lrest hrest =>
        simp only [Except.ok.injEq] at h
        subst h
        intro s hs
        cases o with
        | none =>
          obtain ⟨cc, hcc, hpc⟩ := ih hrest s hs
          exact ⟨cc, List.mem_cons_of_mem _ hcc, hpc⟩
        | some s0 =>
          rcases List.mem_cons.mp hs with heq | hmem
          · subst heq
            exact ⟨c, List.mem_cons_self _ _, hproc⟩
          · obtain ⟨cc, hcc, hpc⟩ := ih hrest s hmem
            exact ⟨cc, List.mem_cons_of_mem _ hcc, hpc⟩

lemma firstMinByScore_mem (l : List StopRec) :
    ∀ b : StopRec, firstMinByScore b l ∈ b :: l := by
  induction l with
  | nil => intro b; simp [firstMinByScore]
  | cons s rest ih =>
    intro b
    simp only [firstMinByScore]
    split
    · rcases List.mem_cons.mp (ih s) with h | h
      · rw [h]; simp
      · simp [List.mem_cons_of_mem, h]
    · rcases List.mem_cons.mp (ih b) with h | h
      · rw [h]; simp
      · simp [List.mem_cons_of_mem, h]

lemma firstMinByScore_le (l : List StopRec) :
    ∀ b : StopRec, ∀ x ∈ b :: l, (firstMinByScore b l).score ≤ x.score := by
  induction l with
  | nil =>
    intro b x hx
    rcases List.mem_cons.mp hx with h | h
    · subst h; simp [firstMinByScore]
    · exact absurd h (by simp)
  | cons s rest ih =>
    intro b x hx
    simp only [firstMinByScore]
    split
    next hlt =>
      rcases List.mem_cons.mp hx with h | h
      · subst h
        exact le_of_lt (lt_of_le_of_lt (ih s s (by simp)) hlt)
      · exact ih s x h
    next hge =>
      rcases List.mem_cons.mp hx with h | h
      · rw [h]; exact ih b b (by simp)
      · rcases List.mem_cons.mp h with h2 | h2
        · subst h2
          exact le_trans (ih b b (by simp)) (le_of_not_lt hge)
        · exact ih b x (by simp [h2])

/-- firstMinByScore is the first element of the list attaining the minimal
score: everything strictly before it scores strictly higher. -/
lemma firstMinByScore_first (l : List StopRec) :
    ∀ b : StopRec, ∃ i, i < (b :: l).length ∧
      (b :: l).getD i default = firstMinByScore b l ∧
      ∀ j < i, (firstMinByScore b l).score < ((b :: l).getD j default).score := by
  induction l with
  | nil =>
    intro b
    exact ⟨0, by simp, by simp [firstMinByScore], fun j hj => absurd hj (by simp)⟩
  | cons s rest ih =>
    intro b
    simp only [firstMinByScore]
    split
    next hlt =>
      obtain ⟨i, hi, hget, hfirst⟩ := ih s
      refine ⟨i + 1, by simpa using hi, by simpa using hget, ?_⟩
      intro j hj
      cases j with
      | zero =>
        simp only [List.getD_cons_zero]
        exact lt_of_le_of_lt (firstMinByScore_le rest s _ (by simp)) hlt
      | succ k =>
        have hk : k < i := by omega
        simpa using hfirst k hk
    next hge =>
      obtain ⟨i, hi, hget, hfirst⟩ := ih b
      cases i with
      | zero =>
        refine ⟨0, by simp, ?_, fun j hj => absurd hj (by simp)⟩
        simpa using hget
      | succ k =>
        refine ⟨k + 2, ?_, ?_, ?_⟩
        · simp only [List.length_cons] at hi ⊢
          omega
        · simpa using hget
        · intro j hj
          cases j with
          | zero =>
            have hb : (firstMinByScore b rest).score < b.score := by
              have := hfirst 0 (by omega)
              simpa using this
            simp only [List.getD_cons_zero]
            exact hb
          | succ m =>
            cases m with
            | zero =>
              have hb : (firstMinByScore b rest).score < b.score := by
                have := hfirst 0 (by omega)
                simpa using this
              have hbs : b.score ≤ s.score := le_of_not_lt hge
              simp only [List.getD_cons_succ, List.getD_cons_zero]
              exact lt_of_lt_of_le hb hbs
            | succ n =>
              have hn : n + 1 < k + 1 := by omega
              have := hfirst (n + 1) hn
              simpa using this

/-- Any stop returned by best_station_for_stop passed the progression
filter, has floored deviation and the ALPHA/BETA score shape. -/
lemma best_station_some_proj {catalog : List Station} {stop_point : ℝ × ℝ}
    {idx : ℕ} {prev : ℝ} {lats lons cumdist : List ℝ} {rmi : ℝ} {s : StopRec}
    (h : best_station_for_stop catalog stop_point idx prev lats lons cumdist rmi =
      .ok (some s)) :
    prev - 0.001 ≤ s.proj_route_km ∧ MIN_DEVIATION_KM ≤ s.deviation_km ∧
      s.score = s.deviation_km * ALPHA + s.retailPrice * BETA := by
  simp only [best_station_for_stop] at h
  split at h
  · exact absurd h (by simp)
  next c crest hq =>
    split at h
    · exact absurd h (by simp)
    · exact absurd h (by simp)
    next s0 srest hc =>
      simp only [Except.ok.injEq, Option.some.injEq] at h
      have hmem := firstMinByScore_mem srest s0
      rw [h] at hmem
      obtain ⟨cc, hcc, hpc⟩ := collectCandidates_mem hc s hmem
      exact processCandidate_some hpc

/-- C8: when best_station_for_stop returns a stop, its projected route
distance is at least the prev_route_km bound minus the 1e-3 km epsilon; no
candidate below that is ever returned. -/
theorem claim_C8_progression_filter (catalog : List Station) (stop_point : ℝ × ℝ)
    (idx : ℕ) (prev : ℝ) (lats lons cumdist : List ℝ) (rmi : ℝ) (s : StopRec)
    (h : best_station_for_stop catalog stop_point idx prev lats lons cumdist rmi =
      .ok (some s)) :
    prev - 0.001 ≤ s.proj_route_km :=
  (best_station_some_proj h).1

/-- C9: a returned stop belongs to the survivor list built from the radius
query, attains the minimal score there, is the first survivor attaining it
(Python's stable sort by score followed by taking element 0), its score is
deviation * ALPHA + price * BETA with ALPHA = 1 and BETA = 3, and its
deviation was floored at MIN_DEVIATION_KM = 0.35 before scoring. -/
theorem claim_C9_min_score_selection (catalog : List Station) (stop_point : ℝ × ℝ)
    (idx : ℕ) (prev : ℝ) (lats lons cumdist : List ℝ) (rmi : ℝ) (s : StopRec)
    (h : best_station_for_stop catalog stop_point idx prev lats lons cumdist rmi =
      .ok (some s)) :
    ∃ L, collectCandidates
        (queryRadius catalog stop_point (miles_to_km rmi / R_earth_km))
        (segWindow idx lats lons cumdist) prev = .ok L ∧
      s ∈ L ∧ (∀ x ∈ L, s.score ≤ x.score) ∧
      (∃ i, i < L.length ∧ L.getD i default = s ∧
        ∀ j < i, s.score < (L.getD j default).score) ∧
      s.score = s.deviation_km * ALPHA + s.retailPrice * BETA ∧
      MIN_DEVIATION_KM ≤ s.deviation_km ∧ ALPHA = 1 ∧ BETA = 3 := by
  simp only [best_station_for_stop] at h
  split at h
  · exact absurd h (by simp)
  next c crest hq =>
    split at h
    · exact absurd h (by simp)
    · exact absurd h (by simp)
    next s0 srest hc =>
      simp only [Except.ok.injEq, Option.some.injEq] at h
      have hmem := firstMinByScore_mem srest s0
      rw [h] at hmem
      obtain ⟨cc, hcc, hpc⟩ := collectCandidates_mem hc s hmem
      obtain ⟨hproj, hdev, hscore⟩ := processCandidate_some hpc
      refine ⟨s0 :: srest, by rw [hq]; exact hc, hmem, ?_, ?_, hscore, hdev,
        by norm_num [ALPHA], by norm_num [BETA]⟩
      · intro x hx
        have := firstMinByScore_le srest s0 x hx
        rw [h] at this
        exact this
      · obtain ⟨i, hi, hget, hfirst⟩ := firstMinByScore_first srest s0
        exact ⟨i, hi, by rw [hget, h], fun j hj => by
          have := hfirst j hj
          rw [h] at this
          exact this⟩

/-- best_station_for_stop returns none exactly when the radius query is
empty or every queried candidate was discarded by the progression filter. -/
lemma best_station_none_iff (catalog : List Station) (stop_point : ℝ × ℝ)
    (idx : ℕ) (prev : ℝ) (lats lons cumdist : List ℝ) (rmi : ℝ) :
    best_station_for_stop catalog stop_point idx prev lats lons cumdist rmi = .ok none ↔
      queryRadius catalog stop_point (miles_to_km rmi / R_earth_km) = [] ∨
      collectCandidates (queryRadius catalog stop_point (miles_to_km rmi / R_earth_km))
        (segWindow idx lats lons cumdist) prev = .ok [] := by
  simp only [best_station_for_stop]
  split
  next hq => simp [hq]
  next c crest hq =>
    rw [hq]
    split
    next e he => simp [he]
    next hc => simp [hc]
    next s0 srest hc => simp [hc]

/-- A stop found by the escalating-radius loop also satisfies the
progression bound, whatever radius succeeded. -/
lemma tryRadii_some_proj (catalog : List Station) (stop_point : ℝ × ℝ) (idx : ℕ)
    (prev : ℝ) (lats lons cumdist : List ℝ) (s : StopRec) :
    ∀ radii, tryRadii catalog radii stop_point idx prev lats lons cumdist =
      .ok (some s) → prev - 0.001 ≤ s.proj_route_km := by
  intro radii
  induction radii with
  | nil => intro h; simp [tryRadii] at h
  | cons r rest ih =>
    intro h
    simp only [tryRadii] at h
    split at h
    · exact absurd h (by simp)
    next s0 hbs =>
      simp only [Except.ok.injEq, Option.some.injEq] at h
      subst h
      exact (best_station_some_proj hbs).1
    next hbs => exact ih h

/-- Loop invariant of the marker loop: the produced stop list is a chain in
which each stop regresses at most 1e-3 km behind its predecessor, and its
first stop respects the incoming prev_proj_km bound. -/
lemma planLoop_chain (catalog : List Station) (pts : List (ℝ × ℝ))
    (cumdist lats lons : List ℝ) :
    ∀ (markers : List ℝ) (prev : ℝ) (l : List StopRec),
      planLoop catalog pts cumdist lats lons markers prev = .ok l →
      List.Chain' (fun a b => a.proj_route_km - 0.001 ≤ b.proj_route_km) l ∧
      (∀ x ∈ l.head?, prev - 0.001 ≤ x.proj_route_km) := by
  intro markers
  induction markers with
  | nil =>
    intro prev l h
    simp only [planLoop, Except.ok.injEq] at h
    subst h
    simp
  | cons m rest ih =>
    intro prev l h
    simp only [planLoop] at h
    split at h
    · exact absurd h (by simp)
    next best htr =>
      split at h
      · exact absurd h (by simp)
      next l2 hl2 =>
        simp only [Except.ok.injEq] at h
        subst h
        obtain ⟨hch, hhd⟩ := ih best.proj_route_km l2 hl2
        constructor
        · cases l2 with
          | nil => simp
          | cons y ys =>
            refine List.chain'_cons.mpr ⟨?_, hch⟩
            exact hhd y (by simp)
        · intro x hx
          simp only [List.head?_cons, Option.mem_def, Option.some.injEq] at hx
          rw [← hx]
          exact tryRadii_some_proj catalog _ _ prev lats lons cumdist best _ htr
    next htr => exact ih prev l h

/-- C7 (amended): within one trip the selected stops are non-decreasing in
proj_route_km up to the progression epsilon: each stop's projected distance
is at least its predecessor's minus 1e-3 km. -/
theorem claim_C7_amended (route_coords : List (ℝ × ℝ)) (catalog : List Station)
    (resp : Option (List (ℝ × ℝ))) (stops : List StopRec)
    (base finalr : List (ℝ × ℝ)) (miles : ℝ)
    (h : plan_trip route_coords catalog resp = .ok (.full stops base finalr miles)) :
    List.Chain' (fun a b => a.proj_route_km - 0.001 ≤ b.proj_route_km) stops := by
  simp only [plan_trip] at h
  split at h
  · exact absurd h (by simp)
  · split at h
    · exact absurd h (by simp)
    next results hpl =>
      simp only [Except.ok.injEq, PlanResult.full.injEq] at h
      obtain ⟨hres, -, -, -⟩ := h
      rw [← hres]
      exact (planLoop_chain catalog _ _ _ _ _ 0 results hpl).1

/-! Claims C6, C3, C5. -/

/-- C6 (amended): pointAtDistance(0) returns the first route point whenever
the total length is positive, and for any target at or beyond the total
length the function returns the last point with fraction 1.0 and index
len(pts) - 1, which is the index of the last route point, one past the last
valid segment start index. -/
theorem claim_C6_amended_endpoints (pts : List (ℝ × ℝ)) (cumdist : List ℝ) (target : ℝ)
    (hhead : cumdist.getD 0 0 = 0) (hpos : 0 < cumdist.getLastD 0) :
    point_on_route_at_distance pts cumdist 0 = (pts.getD 0 (0, 0), 0, 0) ∧
    (cumdist.getLastD 0 ≤ target →
      point_on_route_at_distance pts cumdist target =
        (pts.getLastD (0, 0), pts.length - 1, 1)) := by
  constructor
  · cases cumdist with
    | nil => simp [List.getLastD] at hpos
    | cons c cs =>
      have hc : c = 0 := by simpa using hhead
      subst hc
      have hss : searchsortedLeft (0 :: cs) 0 = 0 := by
        simp [searchsortedLeft]
      simp only [point_on_route_at_distance]
      rw [if_neg (not_le.mpr hpos)]
      rw [hss]
      norm_num
  · intro ht
    simp only [point_on_route_at_distance]
    rw [if_pos ht]
    norm_num

/-- C6 counterexample: on the three-point equatorial route through
longitudes 0, 1, 2 the segments are numbered 0 and 1, so the last valid
segment index is 1 = len(pts) - 2; but for a target beyond the route length
the code returns index 2 = len(pts) - 1, the last point index, contradicting
the claim that the last valid segment index is returned. -/
theorem claim_C6_counterexample :
    route_points_and_cumdist [((0:ℝ), (0:ℝ)), (1, 0), (2, 0)] =
      ([(0, 0), (0, 1), (0, 2)], [0, kmPerDeg, kmPerDeg + kmPerDeg]) ∧
    point_on_route_at_distance [((0:ℝ), (0:ℝ)), (0, 1), (0, 2)]
      [0, kmPerDeg, kmPerDeg + kmPerDeg] 1000000 = ((0, 2), 2, 1) ∧
    (2 : ℕ) ≠ [((0:ℝ), (0:ℝ)), (0, 1), (0, 2)].length - 2 := by
  refine ⟨?_, ?_, by simp⟩
  · simp only [route_points_and_cumdist, List.map_cons, List.map_nil, cumdistAux]
    rw [haversine_equator 0 1 (by norm_num), haversine_equator 1 2 (by norm_num)]
    norm_num
  · simp only [point_on_route_at_distance]
    rw [if_pos ?hle]
    case hle =>
      show List.getLastD [0, kmPerDeg, kmPerDeg + kmPerDeg] 0 ≤ 1000000
      simp only [List.getLastD_cons, List.getLastD_nil]
      nlinarith [kmPerDeg_lt_112]
    norm_num

/-- Witness for the amended C6 at the concrete two-point equatorial route
through longitudes 0 and 1. -/
theorem claim_C6_witness :
    ([(0:ℝ), kmPerDeg].getD 0 0 = 0) ∧ (0 < [(0:ℝ), kmPerDeg].getLastD 0) ∧
    point_on_route_at_distance [((0:ℝ), (0:ℝ)), (0, 1)] [0, kmPerDeg] 0 =
      ((0, 0), 0, 0) ∧
    ([(0:ℝ), kmPerDeg].getLastD 0 ≤ 99999) ∧
    point_on_route_at_distance [((0:ℝ), (0:ℝ)), (0, 1)] [0, kmPerDeg] 99999 =
      ((0, 1), 1, 1) := by
  have hhead : [(0:ℝ), kmPerDeg].getD 0 0 = 0 := by simp
  have hpos : 0 < [(0:ℝ), kmPerDeg].getLastD 0 := by
    simp only [List.getLastD_cons, List.getLastD_nil]
    exact kmPerDeg_pos
  have hle : [(0:ℝ), kmPerDeg].getLastD 0 ≤ 99999 := by
    simp only [List.getLastD_cons, List.getLastD_nil]
    nlinarith [kmPerDeg_lt_112]
  have h := claim_C6_amended_endpoints [((0:ℝ), (0:ℝ)), (0, 1)] [0, kmPerDeg] 99999
    hhead hpos
  exact ⟨hhead, hpos, h.1, hle, h.2 hle⟩

/-- Evaluation of the base route pipeline on the short equatorial route from
longitude 0 to longitude 1. -/
lemma route2_eval : route_points_and_cumdist [((0:ℝ), (0:ℝ)), (1, 0)] =
    ([(0, 0), (0, 1)], [0, kmPerDeg]) := by
  simp only [route_points_and_cumdist, List.map_cons, List.map_nil, cumdistAux]
  rw [haversine_equator 0 1 (by norm_num)]
  norm_num

/-- C3: the claim states plan_trip always returns the total distance in
miles along with the stop list and the two routes; but for a route shorter
than 450 miles the source returns the bare 3-tuple ([], pts, pts) with no
total-miles component (the callers unpack four values and raise).  This
evaluates plan_trip on a one-degree equatorial route (about 69 miles) and
shows the result is the 3-tuple shape. -/
theorem claim_C3_short_route_missing_total :
    plan_trip [((0:ℝ), (0:ℝ)), (1, 0)] [] none =
      .ok (.short [] [(0, 0), (0, 1)] [(0, 0), (0, 1)]) := by
  have hfloor : Int.floor (km_to_miles kmPerDeg / MILES_PER_STOP) = 0 := by
    rw [Int.floor_eq_zero_iff]
    constructor
    · show (0:ℝ) ≤ km_to_miles kmPerDeg / MILES_PER_STOP
      unfold km_to_miles MILES_PER_STOP
      apply div_nonneg (div_nonneg kmPerDeg_pos.le (by norm_num)) (by norm_num)
    · show km_to_miles kmPerDeg / MILES_PER_STOP < 1
      unfold km_to_miles MILES_PER_STOP
      rw [div_div, div_lt_one (by norm_num)]
      nlinarith [kmPerDeg_lt_112]
  simp only [plan_trip, route2_eval]
  simp only [List.getLastD_cons, List.getLastD_nil]
  rw [hfloor]
  norm_num

/-- Station used by the C5 evaluation. -/
def stC5 : Station := { latitude := 0, longitude := 0, retailPrice := 1 }

/-- C5: the claim states degenerate geometry, including a single-point
route, is handled by explicit zero and identity cases and never by an
exception.  On a single-point route with one station inside the query
radius, the window slices are empty, the vectorized projection yields an
empty distance array, and np.argmin raises ValueError; best_station_for_stop
aborts with that exception, the error value here. -/
theorem claim_C5_single_point_route_error :
    best_station_for_stop [stC5] ((0:ℝ), (0:ℝ)) 0 0 [0] [0] [0] 20 = .error () := by
  have hmem : inBallQuery ((0:ℝ), (0:ℝ)) (miles_to_km 20 / R_earth_km) stC5 := by
    rw [inBallQuery_iff_haversine ((0:ℝ), (0:ℝ)) stC5 (miles_to_km 20)
      (by norm_num) (by show |(0:ℝ)| ≤ 90; norm_num)]
    show haversine_km 0 0 stC5.latitude stC5.longitude ≤ miles_to_km 20
    show haversine_km 0 0 0 0 ≤ miles_to_km 20
    rw [haversine_self]
    unfold miles_to_km
    norm_num
  have hq : queryRadius [stC5] ((0:ℝ), (0:ℝ)) (miles_to_km 20 / R_earth_km) =
      [(0, stC5)] := by
    simp only [queryRadius, enumFrom, queryRadiusAux]
    rw [if_pos hmem]
  have hw : segWindow 0 [0] [0] [0] = ([0], [0], [], [], [0], []) := by
    simp only [segWindow]
    norm_num
  have hcc : collectCandidates [(0, stC5)] (segWindow 0 [0] [0] [0]) 0 =
      .error () := by
    rw [hw]
    simp only [collectCandidates, processCandidate, vectorized_segment_projection]
    rfl
  simp only [best_station_for_stop, hq]
  rw [hcc]

/-! A small concrete scenario for the witnesses of C8 and C9 and for the
realizability part of C10: a two-point equatorial route from longitude 0 to
longitude 10 with one station at (lat 0, lon 1, price 2), queried at the
target point (0, 1). -/

def stW : Station := { latitude := 0, longitude := 1, retailPrice := 2 }

/-- The stop record the scenario produces: projection onto the single
segment at t = 1/10, projected route distance kmPerDeg, deviation floored to
0.35, score 0.35 * 1 + 2 * 3. -/
def recW : StopRec :=
  { idx := 0, retailPrice := 2, latitude := 0, longitude := 1,
    deviation_km := 0.35, proj_route_km := kmPerDeg, score := 6.35 }

lemma queryW_eval : queryRadius [stW] ((0:ℝ), 1) (miles_to_km 20 / R_earth_km) =
    [(0, stW)] := by
  have hmem : inBallQuery ((0:ℝ), 1) (miles_to_km 20 / R_earth_km) stW := by
    rw [inBallQuery_iff_haversine ((0:ℝ), 1) stW (miles_to_km 20)
      (by norm_num) (by show |(0:ℝ)| ≤ 90; norm_num)]
    show haversine_km 0 1 stW.latitude stW.longitude ≤ miles_to_km 20
    show haversine_km 0 1 0 1 ≤ miles_to_km 20
    rw [haversine_self]
    unfold miles_to_km
    norm_num
  simp only [queryRadius, enumFrom, queryRadiusAux]
  rw [if_pos hmem]

lemma segWindowW_eval : segWindow 0 [0, 0] [0, 10] [0, 10 * kmPerDeg] =
    ([0], [0], [10], [0], [0], [10 * kmPerDeg]) := by
  simp only [segWindow]
  norm_num

lemma segProjTW_eval : segProjT 1 0 0 0 10 0 = 1 / 10 := by
  simp only [segProjT]
  rw [if_neg (by norm_num)]
  rw [show ((1:ℝ) - 0) * (10 - 0) + (0 - 0) * (0 - 0) = 10 by ring,
    show ((10:ℝ) - 0) * (10 - 0) + (0 - 0) * (0 - 0) = 100 by ring]
  rw [show max (0:ℝ) (10 / 100) = 10 / 100 from max_eq_right (by norm_num)]
  rw [min_eq_right (by norm_num)]
  norm_num

lemma segProjDistW_eval : segProjDist 1 0 0 0 10 0 = 0 := by
  simp only [segProjDist, segProjTW_eval]
  rw [show ((0:ℝ) + 1 / 10 * (0 - 0)) = 0 by norm_num,
    show ((0:ℝ) + 1 / 10 * (10 - 0)) = 1 by norm_num]
  exact haversine_self 0 1

lemma procW_pass (prev : ℝ) (hp : ¬ (kmPerDeg < prev - 0.001)) :
    processCandidate 0 stW ([0], [0], [10], [0], [0], [10 * kmPerDeg]) prev =
      .ok (some recW) := by
  have hdt : vectorized_segment_projection stW.longitude stW.latitude
      [0] [0] [10] [0] = [(0, 1 / 10)] := by
    show vectorized_segment_projection 1 0 [0] [0] [10] [0] = [(0, 1 / 10)]
    simp only [vectorized_segment_projection, List.zip_cons_cons, List.zip_nil_left,
      List.map_cons, List.map_nil, segProjTW_eval, segProjDistW_eval]
  simp only [processCandidate, hdt, List.map_cons, List.map_nil,
    show argminList [(0:ℝ)] = some 0 by simp [argminList, argminAux]]
  rw [if_neg (by
    simp only [List.getD_cons_zero]
    rw [show (0:ℝ) + 1 / 10 * (10 * kmPerDeg) = kmPerDeg by ring]
    exact hp)]
  simp only [List.getD_cons_zero]
  rw [show (0:ℝ) + 1 / 10 * (10 * kmPerDeg) = kmPerDeg by ring]
  unfold recW stW
  have hmax : max (0:ℝ) MIN_DEVIATION_KM = 0.35 := by
    unfold MIN_DEVIATION_KM
    exact max_eq_right (by norm_num)
  simp only [Except.ok.injEq, Option.some.injEq, StopRec.mk.injEq, hmax]
  norm_num [ALPHA, BETA]

lemma procW_filtered (prev : ℝ) (hp : kmPerDeg < prev - 0.001) :
    processCandidate 0 stW ([0], [0], [10], [0], [0], [10 * kmPerDeg]) prev =
      .ok none := by
  have hdt : vectorized_segment_projection stW.longitude stW.latitude
      [0] [0] [10] [0] = [(0, 1 / 10)] := by
    show vectorized_segment_projection 1 0 [0] [0] [10] [0] = [(0, 1 / 10)]
    simp only [vectorized_segment_projection, List.zip_cons_cons, List.zip_nil_left,
      List.map_cons, List.map_nil, segProjTW_eval, segProjDistW_eval]
  simp only [processCandidate, hdt, List.map_cons, List.map_nil,
    show argminList [(0:ℝ)] = some 0 by simp [argminList, argminAux]]
  rw [if_pos (by
    simp only [List.getD_cons_zero]
    rw [show (0:ℝ) + 1 / 10 * (10 * kmPerDeg) = kmPerDeg by ring]
    exact hp)]

lemma bestW_pass : best_station_for_stop [stW] ((0:ℝ), 1) 0 0 [0, 0] [0, 10]
    [0, 10 * kmPerDeg] 20 = .ok (some recW) := by
  have hcc : collectCandidates [(0, stW)] (segWindow 0 [0, 0] [0, 10]
      [0, 10 * kmPerDeg]) 0 = .ok [recW] := by
    rw [segWindowW_eval]
    simp only [collectCandidates]
    rw [procW_pass 0 (by nlinarith [kmPerDeg_pos])]
  simp only [best_station_for_stop, queryW_eval]
  rw [hcc]
  simp [firstMinByScore]

lemma bestW_filtered : best_station_for_stop [stW] ((0:ℝ), 1) 0 500 [0, 0] [0, 10]
    [0, 10 * kmPerDeg] 20 = .ok none := by
  have hcc : collectCandidates [(0, stW)] (segWindow 0 [0, 0] [0, 10]
      [0, 10 * kmPerDeg]) 500 = .ok [] := by
    rw [segWindowW_eval]
    simp only [collectCandidates]
    rw [procW_filtered 500 (by nlinarith [kmPerDeg_lt_112])]
  simp only [best_station_for_stop, queryW_eval]
  rw [hcc]

/-- Witness for C8: the concrete scenario returns a stop, and its projected
route distance respects the progression bound. -/
theorem claim_C8_witness :
    best_station_for_stop [stW] ((0:ℝ), 1) 0 0 [0, 0] [0, 10] [0, 10 * kmPerDeg] 20 =
      .ok (some recW) ∧ (0:ℝ) - 0.001 ≤ recW.proj_route_km :=
  ⟨bestW_pass, claim_C8_progression_filter [stW] ((0:ℝ), 1) 0 0 [0, 0] [0, 10]
    [0, 10 * kmPerDeg] 20 recW bestW_pass⟩

/-- Witness for C9 at the same concrete scenario. -/
theorem claim_C9_witness :
    best_station_for_stop [stW] ((0:ℝ), 1) 0 0 [0, 0] [0, 10] [0, 10 * kmPerDeg] 20 =
      .ok (some recW) ∧
    ∃ L, collectCandidates
        (queryRadius [stW] ((0:ℝ), 1) (miles_to_km 20 / R_earth_km))
        (segWindow 0 [0, 0] [0, 10] [0, 10 * kmPerDeg]) 0 = .ok L ∧
      recW ∈ L ∧ (∀ x ∈ L, recW.score ≤ x.score) ∧
      (∃ i, i < L.length ∧ L.getD i default = recW ∧
        ∀ j < i, recW.score < (L.getD j default).score) ∧
      recW.score = recW.deviation_km * ALPHA + recW.retailPrice * BETA ∧
      MIN_DEVIATION_KM ≤ recW.deviation_km ∧ ALPHA = 1 ∧ BETA = 3 :=
  ⟨bestW_pass, claim_C9_min_score_selection [stW] ((0:ℝ), 1) 0 0 [0, 0] [0, 10]
    [0, 10 * kmPerDeg] 20 recW bestW_pass⟩

/-- C10: best_station_for_stop returns none exactly when the radius query is
empty or every in-radius candidate is discarded by the progression filter;
and a none result does occur with facilities inside the radius (the concrete
scenario with prev_route_km = 500 filters out its single in-radius station). -/
theorem claim_C10_none_iff :
    (∀ (catalog : List Station) (stop_point : ℝ × ℝ) (idx : ℕ) (prev : ℝ)
      (lats lons cumdist : List ℝ) (rmi : ℝ),
      best_station_for_stop catalog stop_point idx prev lats lons cumdist rmi =
          .ok none ↔
        queryRadius catalog stop_point (miles_to_km rmi / R_earth_km) = [] ∨
        collectCandidates (queryRadius catalog stop_point (miles_to_km rmi / R_earth_km))
          (segWindow idx lats lons cumdist) prev = .ok []) ∧
    queryRadius [stW] ((0:ℝ), 1) (miles_to_km 20 / R_earth_km) ≠ [] ∧
    best_station_for_stop [stW] ((0:ℝ), 1) 0 500 [0, 0] [0, 10]
      [0, 10 * kmPerDeg] 20 = .ok none := by
  refine ⟨best_station_none_iff, ?_, bestW_filtered⟩
  rw [queryW_eval]
  simp

/-! The C7 counterexample scenario: an equatorial route through longitudes
0, -3, 3.62463, -0.6 (total about 956.9 miles, two 450-mile markers at
724.2048 km and 1448.4096 km of route distance) and two stations D and B a
fraction of a metre apart near longitude 0.2235.  D lies just inside the
20-mile ball of marker 1, B just outside it; both lie well inside the ball
of marker 2, whose interpolated route point is again near longitude 0.2234
because the route doubles back.  Marker 1 therefore selects D.  At marker 2
both stations pass the progression filter (B's projected route distance is
within the 1e-3 km epsilon behind D's), and B wins on price, so the second
stop's projected route distance is strictly smaller than the first's. -/

def stD : Station := { latitude := 0, longitude := 0.22347, retailPrice := 4 }

def stB : Station := { latitude := 0, longitude := 0.223462, retailPrice := 3 }

def catC7 : List Station := [stD, stB]

def stopD : StopRec :=
  { idx := 0, retailPrice := 4, latitude := 0, longitude := 0.22347,
    deviation_km := 0.35, proj_route_km := 6.22347 * kmPerDeg, score := 12.35 }

def stopB : StopRec :=
  { idx := 1, retailPrice := 3, latitude := 0, longitude := 0.223462,
    deviation_km := 0.35, proj_route_km := 6.223462 * kmPerDeg, score := 9.35 }

/-- Longitude of the interpolated route point at the first marker. -/
def m1lon : ℝ := 724.2048 / kmPerDeg - 6

/-- Longitude of the interpolated route point at the second marker. -/
def m2lon : ℝ := 13.24926 - 1448.4096 / kmPerDeg

lemma kmul_m1lon : kmPerDeg * m1lon = 724.2048 - 6 * kmPerDeg := by
  unfold m1lon
  have h : kmPerDeg ≠ 0 := kmPerDeg_pos.ne'
  field_simp
  ring

lemma kmul_m2lon : kmPerDeg * m2lon = 13.24926 * kmPerDeg - 1448.4096 := by
  unfold m2lon
  have h : kmPerDeg ≠ 0 := kmPerDeg_pos.ne'
  field_simp

lemma m1lon_lb : 0.22347 ≤ m1lon := by
  have h : (6.22347 : ℝ) ≤ 724.2048 / kmPerDeg := by
    rw [le_div_iff₀ kmPerDeg_pos]
    unfold kmPerDeg
    nlinarith [Real.pi_lt_d6]
  unfold m1lon
  linarith

lemma m1lon_ub : m1lon ≤ 1 := by
  have h : 724.2048 / kmPerDeg ≤ 7 := by
    rw [div_le_iff₀ kmPerDeg_pos]
    unfold kmPerDeg
    nlinarith [Real.pi_gt_d6]
  unfold m1lon
  linarith

lemma m2lon_nonneg : 0 ≤ m2lon := by
  have h : 1448.4096 / kmPerDeg ≤ 13.24926 := by
    rw [div_le_iff₀ kmPerDeg_pos]
    unfold kmPerDeg
    nlinarith [Real.pi_gt_d6]
  unfold m2lon
  linarith

lemma m2lon_ub : m2lon ≤ 0.223462 := by
  have h : (13.025798 : ℝ) ≤ 1448.4096 / kmPerDeg := by
    rw [le_div_iff₀ kmPerDeg_pos]
    unfold kmPerDeg
    nlinarith [Real.pi_lt_d6]
  unfold m2lon
  linarith

lemma routeC7_eval :
    route_points_and_cumdist [((0:ℝ), (0:ℝ)), (-3, 0), (3.62463, 0), (-0.6, 0)] =
      ([(0, 0), (0, -3), (0, 3.62463), (0, -0.6)],
       [0, 3 * kmPerDeg, 9.62463 * kmPerDeg, 13.84926 * kmPerDeg]) := by
  simp only [route_points_and_cumdist, List.map_cons, List.map_nil, cumdistAux]
  rw [haversine_equator_of_ge 0 (-3) (by norm_num) (by norm_num),
    haversine_equator_of_le (-3) 3.62463 (by norm_num) (by norm_num),
    haversine_equator_of_ge 3.62463 (-0.6) (by norm_num) (by norm_num)]
  rw [show (0:ℝ) + kmPerDeg * (0 - -3) = 3 * kmPerDeg by ring]
  rw [show 3 * kmPerDeg + kmPerDeg * (3.62463 - -3) = 9.62463 * kmPerDeg by ring]
  rw [show 9.62463 * kmPerDeg + kmPerDeg * (3.62463 - -0.6) = 13.84926 * kmPerDeg by ring]

lemma markerC7_1 : point_on_route_at_distance
    [((0:ℝ), (0:ℝ)), (0, -3), (0, 3.62463), (0, -0.6)]
    [0, 3 * kmPerDeg, 9.62463 * kmPerDeg, 13.84926 * kmPerDeg] 724.2048 =
    ((0, m1lon), 1,
      (724.2048 - 3 * kmPerDeg) / (9.62463 * kmPerDeg - 3 * kmPerDeg)) := by
  have hk := kmPerDeg_gt_111
  have hk2 := kmPerDeg_lt_112
  have hss : searchsortedLeft
      [0, 3 * kmPerDeg, 9.62463 * kmPerDeg, 13.84926 * kmPerDeg] 724.2048 = 2 := by
    simp only [searchsortedLeft]
    rw [if_neg (by norm_num), if_neg (by rw [not_le]; nlinarith),
      if_pos (by nlinarith)]
  simp only [point_on_route_at_distance, List.getLastD_cons, List.getLastD_nil]
  rw [if_neg (by rw [not_le]; nlinarith), hss]
  rw [show ((2:ℕ) - 1) = 1 from rfl]
  rw [show List.getD [(0:ℝ), 3 * kmPerDeg, 9.62463 * kmPerDeg, 13.84926 * kmPerDeg] 1 0 =
    3 * kmPerDeg from rfl]
  rw [show List.getD [(0:ℝ), 3 * kmPerDeg, 9.62463 * kmPerDeg, 13.84926 * kmPerDeg] 2 0 =
    9.62463 * kmPerDeg from rfl]
  rw [show List.getD [((0:ℝ), (0:ℝ)), (0, -3), (0, 3.62463), (0, -0.6)] 1 (0, 0) =
    ((0:ℝ), (-3:ℝ)) from rfl]
  rw [show List.getD [((0:ℝ), (0:ℝ)), (0, -3), (0, 3.62463), (0, -0.6)] 2 (0, 0) =
    ((0:ℝ), (3.62463:ℝ)) from rfl]
  dsimp only
  rw [if_pos (by nlinarith : (0:ℝ) < 9.62463 * kmPerDeg - 3 * kmPerDeg)]
  rw [show (0:ℝ) + (724.2048 - 3 * kmPerDeg) / (9.62463 * kmPerDeg - 3 * kmPerDeg) *
    (0 - 0) = 0 by ring]
  have hlon : (-3:ℝ) + (724.2048 - 3 * kmPerDeg) /
      (9.62463 * kmPerDeg - 3 * kmPerDeg) * (3.62463 - -3) = m1lon := by
    unfold m1lon
    have h : kmPerDeg ≠ 0 := kmPerDeg_pos.ne'
    rw [show (9.62463:ℝ) * kmPerDeg - 3 * kmPerDeg = 6.62463 * kmPerDeg by ring]
    field_simp
    ring
  rw [hlon]

lemma hav_m1_stD : haversine_km 0 m1lon 0 stD.longitude =
    724.2048 - 6.22347 * kmPerDeg := by
  show haversine_km 0 m1lon 0 0.22347 = 724.2048 - 6.22347 * kmPerDeg
  rw [haversine_equator_of_ge m1lon 0.22347 m1lon_lb
    (by linarith [m1lon_ub] : m1lon - 0.22347 ≤ 180)]
  linear_combination kmul_m1lon

lemma hav_m1_stB : haversine_km 0 m1lon 0 stB.longitude =
    724.2048 - 6.223462 * kmPerDeg := by
  show haversine_km 0 m1lon 0 0.223462 = 724.2048 - 6.223462 * kmPerDeg
  rw [haversine_equator_of_ge m1lon 0.223462 (by linarith [m1lon_lb])
    (by linarith [m1lon_ub] : m1lon - 0.223462 ≤ 180)]
  linear_combination kmul_m1lon

lemma hav_m2_stD : haversine_km 0 m2lon 0 stD.longitude =
    1448.4096 - 13.02579 * kmPerDeg := by
  show haversine_km 0 m2lon 0 0.22347 = 1448.4096 - 13.02579 * kmPerDeg
  rw [haversine_equator_of_le m2lon 0.22347 (by linarith [m2lon_ub])
    (by linarith [m2lon_nonneg] : (0.22347:ℝ) - m2lon ≤ 180)]
  linear_combination (-1 : ℝ) * kmul_m2lon

lemma hav_m2_stB : haversine_km 0 m2lon 0 stB.longitude =
    1448.4096 - 13.025798 * kmPerDeg := by
  show haversine_km 0 m2lon 0 0.223462 = 1448.4096 - 13.025798 * kmPerDeg
  rw [haversine_equator_of_le m2lon 0.223462 m2lon_ub
    (by linarith [m2lon_nonneg] : (0.223462:ℝ) - m2lon ≤ 180)]
  linear_combination (-1 : ℝ) * kmul_m2lon

lemma radius20_eval : miles_to_km MAX_DEVIATION_MILES = 32.18688 := by
  norm_num [miles_to_km, MAX_DEVIATION_MILES]

/-- Station D is inside the 20-mile ball of marker 1 (by about 0.4 m). -/
lemma inBall_m1_stD : inBallQuery ((0:ℝ), m1lon)
    (miles_to_km MAX_DEVIATION_MILES / R_earth_km) stD := by
  rw [inBallQuery_iff_haversine ((0:ℝ), m1lon) stD (miles_to_km MAX_DEVIATION_MILES)
    (by show |(0:ℝ)| ≤ 90; norm_num) (by show |(0:ℝ)| ≤ 90; norm_num)]
  show haversine_km 0 m1lon 0 stD.longitude ≤ miles_to_km MAX_DEVIATION_MILES
  rw [hav_m1_stD, radius20_eval]
  unfold kmPerDeg
  nlinarith [Real.pi_gt_d20]

/-- Station B is outside the 20-mile ball of marker 1 (by about 0.5 m). -/
lemma notInBall_m1_stB : ¬ inBallQuery ((0:ℝ), m1lon)
    (miles_to_km MAX_DEVIATION_MILES / R_earth_km) stB := by
  rw [inBallQuery_iff_haversine ((0:ℝ), m1lon) stB (miles_to_km MAX_DEVIATION_MILES)
    (by show |(0:ℝ)| ≤ 90; norm_num) (by show |(0:ℝ)| ≤ 90; norm_num)]
  show ¬ (haversine_km 0 m1lon 0 stB.longitude ≤ miles_to_km MAX_DEVIATION_MILES)
  rw [hav_m1_stB, radius20_eval, not_le]
  unfold kmPerDeg
  nlinarith [Real.pi_lt_d20]

lemma inBall_m2_stD : inBallQuery ((0:ℝ), m2lon)
    (miles_to_km MAX_DEVIATION_MILES / R_earth_km) stD := by
  rw [inBallQuery_iff_haversine ((0:ℝ), m2lon) stD (miles_to_km MAX_DEVIATION_MILES)
    (by show |(0:ℝ)| ≤ 90; norm_num) (by show |(0:ℝ)| ≤ 90; norm_num)]
  show haversine_km 0 m2lon 0 stD.longitude ≤ miles_to_km MAX_DEVIATION_MILES
  rw [hav_m2_stD, radius20_eval]
  unfold kmPerDeg
  nlinarith [Real.pi_gt_d6]

lemma inBall_m2_stB : inBallQuery ((0:ℝ), m2lon)
    (miles_to_km MAX_DEVIATION_MILES / R_earth_km) stB := by
  rw [inBallQuery_iff_haversine ((0:ℝ), m2lon) stB (miles_to_km MAX_DEVIATION_MILES)
    (by show |(0:ℝ)| ≤ 90; norm_num) (by show |(0:ℝ)| ≤ 90; norm_num)]
  show haversine_km 0 m2lon 0 stB.longitude ≤ miles_to_km MAX_DEVIATION_MILES
  rw [hav_m2_stB, radius20_eval]
  unfold kmPerDeg
  nlinarith [Real.pi_gt_d6]

lemma queryC7_m1 : queryRadius catC7 ((0:ℝ), m1lon)
    (miles_to_km MAX_DEVIATION_MILES / R_earth_km) = [(0, stD)] := by
  simp only [queryRadius, catC7, enumFrom, queryRadiusAux]
  rw [if_pos inBall_m1_stD, if_neg notInBall_m1_stB]

lemma queryC7_m2 : queryRadius catC7 ((0:ℝ), m2lon)
    (miles_to_km MAX_DEVIATION_MILES / R_earth_km) = [(0, stD), (1, stB)] := by
  simp only [queryRadius, catC7, enumFrom, queryRadiusAux]
  rw [if_pos inBall_m2_stD, if_pos inBall_m2_stB]

lemma markerC7_2 : point_on_route_at_distance
    [((0:ℝ), (0:ℝ)), (0, -3), (0, 3.62463), (0, -0.6)]
    [0, 3 * kmPerDeg, 9.62463 * kmPerDeg, 13.84926 * kmPerDeg] 1448.4096 =
    ((0, m2lon), 2,
      (1448.4096 - 9.62463 * kmPerDeg) / (13.84926 * kmPerDeg - 9.62463 * kmPerDeg)) := by
  have hk := kmPerDeg_gt_111
  have hk2 := kmPerDeg_lt_112
  have hss : searchsortedLeft
      [0, 3 * kmPerDeg, 9.62463 * kmPerDeg, 13.84926 * kmPerDeg] 1448.4096 = 3 := by
    simp only [searchsortedLeft]
    rw [if_neg (by norm_num), if_neg (by rw [not_le]; nlinarith),
      if_neg (by rw [not_le]; nlinarith), if_pos (by nlinarith)]
  simp only [point_on_route_at_distance, List.getLastD_cons, List.getLastD_nil]
  rw [if_neg (by rw [not_le]; nlinarith), hss]
  rw [show ((3:ℕ) - 1) = 2 from rfl]
  rw [show List.getD [(0:ℝ), 3 * kmPerDeg, 9.62463 * kmPerDeg, 13.84926 * kmPerDeg] 2 0 =
    9.62463 * kmPerDeg from rfl]
  rw [show List.getD [(0:ℝ), 3 * kmPerDeg, 9.62463 * kmPerDeg, 13.84926 * kmPerDeg] 3 0 =
    13.84926 * kmPerDeg from rfl]
  rw [show List.getD [((0:ℝ), (0:ℝ)), (0, -3), (0, 3.62463), (0, -0.6)] 2 (0, 0) =
    ((0:ℝ), (3.62463:ℝ)) from rfl]
  rw [show List.getD [((0:ℝ), (0:ℝ)), (0, -3), (0, 3.62463), (0, -0.6)] 3 (0, 0) =
    ((0:ℝ), (-0.6:ℝ)) from rfl]
  dsimp only
  rw [if_pos (by nlinarith : (0:ℝ) < 13.84926 * kmPerDeg - 9.62463 * kmPerDeg)]
  rw [show (0:ℝ) + (1448.4096 - 9.62463 * kmPerDeg) /
    (13.84926 * kmPerDeg - 9.62463 * kmPerDeg) * (0 - 0) = 0 by ring]
  have hlon : (3.62463:ℝ) + (1448.4096 - 9.62463 * kmPerDeg) /
      (13.84926 * kmPerDeg - 9.62463 * kmPerDeg) * (-0.6 - 3.62463) = m2lon := by
    unfold m2lon
    have h : kmPerDeg ≠ 0 := kmPerDeg_pos.ne'
    rw [show (13.84926:ℝ) * kmPerDeg - 9.62463 * kmPerDeg = 4.22463 * kmPerDeg by ring]
    field_simp
    ring
  rw [hlon]

/-- The segment window both markers see: all three route segments, with
their base cumulative distances and lengths. -/
def winC7 : List ℝ × List ℝ × List ℝ × List ℝ × List ℝ × List ℝ :=
  ([0, -3, 3.62463], [0, 0, 0], [-3, 3.62463, -0.6], [0, 0, 0],
   [0, 3 * kmPerDeg, 9.62463 * kmPerDeg],
   [3 * kmPerDeg - 0, 9.62463 * kmPerDeg - 3 * kmPerDeg,
    13.84926 * kmPerDeg - 9.62463 * kmPerDeg])

lemma segWindowC7_1 : segWindow 1 [0, 0, 0, 0] [0, -3, 3.62463, -0.6]
    [0, 3 * kmPerDeg, 9.62463 * kmPerDeg, 13.84926 * kmPerDeg] = winC7 := rfl

lemma segWindowC7_2 : segWindow 2 [0, 0, 0, 0] [0, -3, 3.62463, -0.6]
    [0, 3 * kmPerDeg, 9.62463 * kmPerDeg, 13.84926 * kmPerDeg] = winC7 := rfl

/-- Projection of a station on the equator strictly between longitudes 0 and
3.62463 against the C7 window: the first segment clamps to its start (0, 0)
at distance kmPerDeg times the longitude, the second and third segments pass
through the station at distance 0, np.argmin ties break to the second
segment (index 1), and the projected route distance is
(longitude + 6) * kmPerDeg. -/
lemma procC7 (i : ℕ) (st : Station) (prev : ℝ) (hlat : st.latitude = 0)
    (hb1 : 0 < st.longitude) (hb2 : st.longitude < 3.62463) :
    processCandidate i st winC7 prev =
      if (st.longitude + 6) * kmPerDeg < prev - 0.001 then .ok none
      else .ok (some
        { idx := i
          retailPrice := st.retailPrice
          latitude := st.latitude
          longitude := st.longitude
          deviation_km := 0.35
          proj_route_km := (st.longitude + 6) * kmPerDeg
          score := 0.35 * ALPHA + st.retailPrice * BETA }) := by
  have ht0 : segProjT st.longitude 0 0 0 (-3) 0 = 0 := by
    simp only [segProjT]
    rw [if_neg (by norm_num)]
    rw [show ((st.longitude - 0) * (-3 - 0) + (0 - 0) * (0 - 0)) /
      (((-3:ℝ) - 0) * (-3 - 0) + (0 - 0) * (0 - 0)) = -(st.longitude / 3) by ring]
    rw [max_eq_left (by linarith : -(st.longitude / 3) ≤ 0)]
    exact min_eq_right (by norm_num)
  have hd0 : segProjDist st.longitude 0 0 0 (-3) 0 = kmPerDeg * st.longitude := by
    simp only [segProjDist, ht0]
    rw [show ((0:ℝ) + 0 * (0 - 0)) = 0 by ring, show ((0:ℝ) + 0 * (-3 - 0)) = 0 by ring]
    rw [haversine_equator_of_ge st.longitude 0 hb1.le (by linarith)]
    ring
  have ht1 : segProjT st.longitude 0 (-3) 0 3.62463 0 = (st.longitude + 3) / 6.62463 := by
    simp only [segProjT]
    rw [if_neg (by norm_num)]
    rw [show ((st.longitude - -3) * (3.62463 - -3) + (0 - 0) * (0 - 0)) /
      (((3.62463:ℝ) - -3) * (3.62463 - -3) + (0 - 0) * (0 - 0)) =
      (st.longitude + 3) / 6.62463 by ring]
    rw [max_eq_right (by
      apply div_nonneg (by linarith) (by norm_num))]
    exact min_eq_right (by rw [div_le_one (by norm_num)]; linarith)
  have hd1 : segProjDist st.longitude 0 (-3) 0 3.62463 0 = 0 := by
    simp only [segProjDist, ht1]
    rw [show ((0:ℝ) + (st.longitude + 3) / 6.62463 * (0 - 0)) = 0 by ring]
    rw [show ((-3:ℝ) + (st.longitude + 3) / 6.62463 * (3.62463 - -3)) = st.longitude by
      rw [show ((3.62463:ℝ) - -3) = 6.62463 by norm_num,
        div_mul_cancel₀ _ (by norm_num : (6.62463:ℝ) ≠ 0)]
      ring]
    exact haversine_self 0 st.longitude
  have ht2 : segProjT st.longitude 0 3.62463 0 (-0.6) 0 =
      (3.62463 - st.longitude) / 4.22463 := by
    simp only [segProjT]
    rw [if_neg (by norm_num)]
    rw [show ((st.longitude - 3.62463) * (-0.6 - 3.62463) + (0 - 0) * (0 - 0)) /
      (((-0.6:ℝ) - 3.62463) * (-0.6 - 3.62463) + (0 - 0) * (0 - 0)) =
      (3.62463 - st.longitude) / 4.22463 by ring]
    rw [max_eq_right (by
      apply div_nonneg (by linarith) (by norm_num))]
    exact min_eq_right (by rw [div_le_one (by norm_num)]; linarith)
  have hd2 : segProjDist st.longitude 0 3.62463 0 (-0.6) 0 = 0 := by
    simp only [segProjDist, ht2]
    rw [show ((0:ℝ) + (3.62463 - st.longitude) / 4.22463 * (0 - 0)) = 0 by ring]
    rw [show ((3.62463:ℝ) + (3.62463 - st.longitude) / 4.22463 * (-0.6 - 3.62463)) =
      st.longitude by
      rw [show ((-0.6:ℝ) - 3.62463) = -4.22463 by norm_num]
      rw [show (3.62463 - st.longitude) / 4.22463 * (-4.22463) =
        -((3.62463 - st.longitude) / 4.22463 * 4.22463) by ring]
      rw [div_mul_cancel₀ _ (by norm_num : (4.22463:ℝ) ≠ 0)]
      ring]
    exact haversine_self 0 st.longitude
  have hdt : vectorized_segment_projection st.longitude st.latitude
      [0, -3, 3.62463] [0, 0, 0] [-3, 3.62463, -0.6] [0, 0, 0] =
      [(kmPerDeg * st.longitude, 0), (0, (st.longitude + 3) / 6.62463),
       (0, (3.62463 - st.longitude) / 4.22463)] := by
    rw [hlat]
    simp only [vectorized_segment_projection, List.zip_cons_cons, List.zip_nil_left,
      List.map_cons, List.map_nil, ht0, hd0, ht1, hd1, ht2, hd2]
  have hargmin : argminList [kmPerDeg * st.longitude, 0, 0] = some 1 := by
    simp only [argminList, argminAux]
    rw [if_pos (mul_pos kmPerDeg_pos hb1), if_neg (lt_irrefl (0:ℝ))]
  simp only [processCandidate, winC7, hdt, List.map_cons, List.map_nil, hargmin]
  rw [show List.getD [kmPerDeg * st.longitude, (0:ℝ), 0] 1 0 = 0 from rfl]
  rw [show List.getD [(0:ℝ), (st.longitude + 3) / 6.62463,
    (3.62463 - st.longitude) / 4.22463] 1 0 = (st.longitude + 3) / 6.62463 from rfl]
  rw [show List.getD [(0:ℝ), 3 * kmPerDeg, 9.62463 * kmPerDeg] 1 0 =
    3 * kmPerDeg from rfl]
  rw [show List.getD [3 * kmPerDeg - 0, 9.62463 * kmPerDeg - 3 * kmPerDeg,
    13.84926 * kmPerDeg - 9.62463 * kmPerDeg] 1 0 =
    9.62463 * kmPerDeg - 3 * kmPerDeg from rfl]
  have hproj : 3 * kmPerDeg + (st.longitude + 3) / 6.62463 *
      (9.62463 * kmPerDeg - 3 * kmPerDeg) = (st.longitude + 6) * kmPerDeg := by
    rw [show (9.62463:ℝ) * kmPerDeg - 3 * kmPerDeg = 6.62463 * kmPerDeg by ring]
    rw [show (st.longitude + 3) / 6.62463 * (6.62463 * kmPerDeg) =
      (st.longitude + 3) / 6.62463 * 6.62463 * kmPerDeg by ring]
    rw [div_mul_cancel₀ _ (by norm_num : (6.62463:ℝ) ≠ 0)]
    ring
  rw [hproj]
  have hmax : max (0:ℝ) MIN_DEVIATION_KM = 0.35 := by
    unfold MIN_DEVIATION_KM
    exact max_eq_right (by norm_num)
  rw [hmax]

lemma procC7_stD (prev : ℝ) (h : ¬ ((stD.longitude + 6) * kmPerDeg < prev - 0.001)) :
    processCandidate 0 stD winC7 prev = .ok (some stopD) := by
  rw [procC7 0 stD prev rfl (by show (0:ℝ) < 0.22347; norm_num)
    (by show (0.22347:ℝ) < 3.62463; norm_num)]
  rw [if_neg h]
  simp only [stD, stopD]
  norm_num [ALPHA, BETA]

lemma procC7_stB (prev : ℝ) (h : ¬ ((stB.longitude + 6) * kmPerDeg < prev - 0.001)) :
    processCandidate 1 stB winC7 prev = .ok (some stopB) := by
  rw [procC7 1 stB prev rfl (by show (0:ℝ) < 0.223462; norm_num)
    (by show (0.223462:ℝ) < 3.62463; norm_num)]
  rw [if_neg h]
  simp only [stB, stopB]
  norm_num [ALPHA, BETA]

lemma bestC7_m1 : best_station_for_stop catC7 ((0:ℝ), m1lon) 1 0 [0, 0, 0, 0]
    [0, -3, 3.62463, -0.6] [0, 3 * kmPerDeg, 9.62463 * kmPerDeg, 13.84926 * kmPerDeg]
    MAX_DEVIATION_MILES = .ok (some stopD) := by
  have hproc := procC7_stD 0 (by
    rw [not_lt]
    have hpos : 0 < (stD.longitude + 6) * kmPerDeg :=
      mul_pos (by show (0:ℝ) < 0.22347 + 6; norm_num) kmPerDeg_pos
    linarith)
  have hcc : collectCandidates [(0, stD)] winC7 0 = .ok [stopD] := by
    simp only [collectCandidates, hproc]
  simp only [best_station_for_stop, queryC7_m1, segWindowC7_1, hcc]
  simp [firstMinByScore]

lemma bestC7_m2 : best_station_for_stop catC7 ((0:ℝ), m2lon) 2 (6.22347 * kmPerDeg)
    [0, 0, 0, 0] [0, -3, 3.62463, -0.6]
    [0, 3 * kmPerDeg, 9.62463 * kmPerDeg, 13.84926 * kmPerDeg]
    MAX_DEVIATION_MILES = .ok (some stopB) := by
  have hD := procC7_stD (6.22347 * kmPerDeg) (by
    rw [not_lt, show (stD.longitude + 6) * kmPerDeg = 6.22347 * kmPerDeg by
      show ((0.22347:ℝ) + 6) * kmPerDeg = 6.22347 * kmPerDeg; norm_num]
    linarith)
  have hB := procC7_stB (6.22347 * kmPerDeg) (by
    rw [not_lt, show (stB.longitude + 6) * kmPerDeg = 6.223462 * kmPerDeg by
      show ((0.223462:ℝ) + 6) * kmPerDeg = 6.223462 * kmPerDeg; norm_num]
    nlinarith [kmPerDeg_lt_112])
  have hcc : collectCandidates [(0, stD), (1, stB)] winC7 (6.22347 * kmPerDeg) =
      .ok [stopD, stopB] := by
    simp only [collectCandidates, hD, hB]
  simp only [best_station_for_stop, queryC7_m2, segWindowC7_2, hcc]
  simp only [firstMinByScore]
  rw [if_pos (by show (9.35:ℝ) < 12.35; norm_num)]

lemma tryC7_m1 : tryRadii catC7 [MAX_DEVIATION_MILES, 50, 100, 150] ((0:ℝ), m1lon) 1 0
    [0, 0, 0, 0] [0, -3, 3.62463, -0.6]
    [0, 3 * kmPerDeg, 9.62463 * kmPerDeg, 13.84926 * kmPerDeg] = .ok (some stopD) := by
  simp only [tryRadii, bestC7_m1]

lemma tryC7_m2 : tryRadii catC7 [MAX_DEVIATION_MILES, 50, 100, 150] ((0:ℝ), m2lon) 2
    (6.22347 * kmPerDeg) [0, 0, 0, 0] [0, -3, 3.62463, -0.6]
    [0, 3 * kmPerDeg, 9.62463 * kmPerDeg, 13.84926 * kmPerDeg] = .ok (some stopB) := by
  simp only [tryRadii, bestC7_m2]

lemma planLoopC7 : planLoop catC7 [((0:ℝ), (0:ℝ)), (0, -3), (0, 3.62463), (0, -0.6)]
    [0, 3 * kmPerDeg, 9.62463 * kmPerDeg, 13.84926 * kmPerDeg]
    [0, 0, 0, 0] [0, -3, 3.62463, -0.6]
    [724.2048, 1448.4096] 0 = .ok [stopD, stopB] := by
  simp only [planLoop, markerC7_1, markerC7_2, tryC7_m1,
    show stopD.proj_route_km = 6.22347 * kmPerDeg from rfl, tryC7_m2]

lemma planTripC7_eval :
    plan_trip [((0:ℝ), (0:ℝ)), (-3, 0), (3.62463, 0), (-0.6, 0)] catC7 none =
      .ok (.full [stopD, stopB] [(0, 0), (0, -3), (0, 3.62463), (0, -0.6)]
        [(0, 0), (0, -3), (0, 3.62463), (0, -0.6)]
        (km_to_miles (13.84926 * kmPerDeg))) := by
  have hx : km_to_miles (13.84926 * kmPerDeg) / MILES_PER_STOP =
      13.84926 * kmPerDeg / 724.2048 := by
    unfold km_to_miles MILES_PER_STOP
    rw [div_div]
    norm_num
  have hfloor : Int.floor (km_to_miles (13.84926 * kmPerDeg) / MILES_PER_STOP) = 2 := by
    rw [hx, Int.floor_eq_iff]
    constructor
    · rw [le_div_iff₀ (by norm_num)]
      push_cast
      nlinarith [kmPerDeg_gt_111]
    · rw [div_lt_iff₀ (by norm_num)]
      push_cast
      nlinarith [kmPerDeg_lt_112]
  have hmk : List.map (fun i => miles_to_km ((i + 1 : ℕ) * MILES_PER_STOP))
      (List.range 2) = [724.2048, 1448.4096] := by
    rw [show List.range 2 = [0, 1] from rfl]
    simp only [List.map_cons, List.map_nil]
    norm_num [miles_to_km, MILES_PER_STOP]
  simp only [plan_trip, routeC7_eval, List.map_cons, List.map_nil,
    List.getLastD_cons, List.getLastD_nil]
  rw [hfloor]
  rw [show Int.toNat 2 = 2 from rfl]
  rw [if_neg (by norm_num : ¬ (2 = 0))]
  rw [hmk, planLoopC7]

/-- C7 counterexample: on this concrete trip the two selected stops are D
then B, and the second stop's projected route distance is strictly smaller
than the first's (by about 0.89 m, within the 1e-3 km progression epsilon),
refuting the claim that each later stop's projected route distance is at
least the earlier stop's. -/
theorem claim_C7_counterexample :
    plan_trip [((0:ℝ), (0:ℝ)), (-3, 0), (3.62463, 0), (-0.6, 0)] catC7 none =
      .ok (.full [stopD, stopB] [(0, 0), (0, -3), (0, 3.62463), (0, -0.6)]
        [(0, 0), (0, -3), (0, 3.62463), (0, -0.6)]
        (km_to_miles (13.84926 * kmPerDeg))) ∧
    stopB.proj_route_km < stopD.proj_route_km := by
  refine ⟨planTripC7_eval, ?_⟩
  show (6.223462:ℝ) * kmPerDeg < 6.22347 * kmPerDeg
  nlinarith [kmPerDeg_pos]

/-- Witness for the amended C7 on the same concrete trip. -/
theorem claim_C7_witness :
    plan_trip [((0:ℝ), (0:ℝ)), (-3, 0), (3.62463, 0), (-0.6, 0)] catC7 none =
      .ok (.full [stopD, stopB] [(0, 0), (0, -3), (0, 3.62463), (0, -0.6)]
        [(0, 0), (0, -3), (0, 3.62463), (0, -0.6)]
        (km_to_miles (13.84926 * kmPerDeg))) ∧
    List.Chain' (fun a b => a.proj_route_km - 0.001 ≤ b.proj_route_km)
      [stopD, stopB] :=
  ⟨planTripC7_eval,
    claim_C7_amended _ catC7 none [stopD, stopB] _ _ _ planTripC7_eval⟩

end

end FuelApi
